import Mathlib

/-!
Verification development for the historai-pdf-service repository.

The repository drives two remote Foxit pipelines (HTML→PDF conversion and
PDF compression) from a report orchestrator, and fills an HTML template by
three sequential regex-replacement passes.  This file gives a shallow
embedding of those modules and proves / refutes the frozen claims about
them.

Conventions of the embedding:
  * JavaScript `undefined`/`null` is `Option.none`; a present value is `some`.
  * JS string falsiness (`!s`) holds exactly for the empty string.
  * Buffers are `List Nat` (raw bytes).
  * Remote HTTP responses are supplied by explicit "world" records: each
    step of a pipeline consumes the response the remote service would have
    produced for it.  Transport failures are `Except.error` with the decoded
    detail string.
  * Wall-clock time is a `Nat` millisecond counter; `await sleep(ms)`
    advances it by `ms`, a poll round-trip advances it by that poll's
    duration.
-/

/-! ## JavaScript-semantics helpers -/

/-- JS `a ?? b`: take `a` unless it is nullish (`undefined`/`null`). -/
def jsNullish (a b : Option String) : Option String :=
  match a with
  | some v => some v
  | none => b

/-- JS `!x` for an optional string: `undefined` and `""` are falsy. -/
def jsFalsyStr (o : Option String) : Bool :=
  match o with
  | none => true
  | some s => s == ""

/-- JS `s.replace(/\/$/, '')`: strip one trailing slash if present. -/
def stripTrailingSlash (s : String) : String :=
  if s.data.getLast? = some '/' then ⟨s.data.dropLast⟩ else s

/-- Regex `\w`: ASCII letters, digits and underscore. -/
def isWordChar (c : Char) : Bool := c.isAlphanum || c == '_'


/-- Decimal value of a digit-character list. -/
def digitsToNat (l : List Char) : Nat :=
  l.foldl (fun acc c => 10 * acc + (c.toNat - 48)) 0

/-- A string is a canonical array index (JS `arr[s]` hits element `n` only
when `s` is the canonical decimal form of `n`, i.e. digits with no leading
zero; `arr["007"]` is a plain property lookup and yields `undefined`). -/
def canonIndex (s : String) : Option Nat :=
  match s.data with
  | [] => none
  | c :: cs =>
    if (c :: cs).all Char.isDigit && (c ≠ '0' || cs.isEmpty) then
      some (digitsToNat (c :: cs))
    else none

/-! ## Data model of `ReportData` values

`ReportData` fields are strings or lists; list elements are strings
(`characterFacts`, `reflectionQuestions`) or records with string-valued
fields (`themes`, `resources`).  An object is an association list with
first-match lookup; string coercions follow JS `String(x)`. -/

/-- A list element of a `ReportData` field. -/
inductive Item where
  | str (s : String)
  | obj (fields : List (String × String))
deriving DecidableEq, Repr

/-- A `ReportData` field value. -/
inductive Val where
  | str (s : String)
  | arr (items : List Item)
deriving DecidableEq, Repr

/-- JS string coercion of a list element. -/
def itemToString : Item → String
  | .str s => s
  | .obj _ => "[object Object]"

/-- JS string coercion of a field value (arrays join with commas). -/
def valToString : Val → String
  | .str s => s
  | .arr items => String.intercalate (",") (items.map itemToString)

/-- A data record: JS object as association list, first binding wins. -/
def lookupData (data : List (String × Val)) (k : String) : Option Val :=
  (data.find? (fun p => p.1 == k)).map (fun p => p.2)

/-- JS `arr[index]` where `index` is the captured digit string: element
access only for a canonical decimal index, else `undefined`. -/
def jsArrayGet (items : List Item) (idx : String) : Option Item :=
  match canonIndex idx with
  | some n => items.get? n
  | none => none

/-- JS property access `element[field]` for a list element.  For records
it is association lookup.  For strings the own properties `length` and
canonical numeric indices are defined (prototype methods are outside the
model; no claim touches them). -/
def jsItemGet (item : Item) (field : String) : Option String :=
  match item with
  | .obj fields => (fields.find? (fun p => p.1 == field)).map (fun p => p.2)
  | .str s =>
    if field == "length" then some (Nat.repr s.length)
    else
      match canonIndex field with
      | some n => (s.data.get? n).map (fun c => String.mk [c])
      | none => none

/-! ## Template interpolation (`interpolate` / `_interpolate`)

The source runs three `String.replace(regex, fn)` passes in order:
  1. `\{\{(\w+)\[(\d+)\]\.(\w+)\}\}`
  2. `\{\{(\w+)\[(\d+)\]\}\}`
  3. `\{\{(\w+)\}\}`
Each pass scans left to right, replacing every non-overlapping leftmost
match and continuing after the replaced region.  The patterns are
backtracking-free (each greedy class is followed by a literal outside the
class), so a deterministic scanner is an exact model. -/

/-- Try pattern 1 at the head of the character list: the regex group
structure on success, with the remainder after the match, else `none`.
Each greedy class (`takeWhile`) is followed by a literal outside the
class, so greedy matching without backtracking is exact. -/
def matchP1 : List Char → Option (String × String × String × List Char)
  | '{' :: '{' :: rest =>
    if (rest.takeWhile isWordChar).isEmpty then none else
    match rest.dropWhile isWordChar with
    | '[' :: r2 =>
      if (r2.takeWhile Char.isDigit).isEmpty then none else
      match r2.dropWhile Char.isDigit with
      | ']' :: '.' :: r4 =>
        if (r4.takeWhile isWordChar).isEmpty then none else
        match r4.dropWhile isWordChar with
        | '}' :: '}' :: r6 =>
          some (⟨rest.takeWhile isWordChar⟩, ⟨r2.takeWhile Char.isDigit⟩,
                ⟨r4.takeWhile isWordChar⟩, r6)
        | _ => none
      | _ => none
    | _ => none
  | _ => none

/-- Try pattern 2 at the head of the character list. -/
def matchP2 : List Char → Option (String × String × List Char)
  | '{' :: '{' :: rest =>
    if (rest.takeWhile isWordChar).isEmpty then none else
    match rest.dropWhile isWordChar with
    | '[' :: r2 =>
      if (r2.takeWhile Char.isDigit).isEmpty then none else
      match r2.dropWhile Char.isDigit with
      | ']' :: '}' :: '}' :: r4 =>
        some (⟨rest.takeWhile isWordChar⟩, ⟨r2.takeWhile Char.isDigit⟩, r4)
      | _ => none
    | _ => none
  | _ => none

/-- Try pattern 3 at the head of the character list. -/
def matchP3 : List Char → Option (String × List Char)
  | '{' :: '{' :: rest =>
    if (rest.takeWhile isWordChar).isEmpty then none else
    match rest.dropWhile isWordChar with
    | '}' :: '}' :: r2 => some (⟨rest.takeWhile isWordChar⟩, r2)
    | _ => none
  | _ => none

/-- Replacement callback of pass 1 (`{{array[i].field}}`):
`Array.isArray(arr) && arr[index] !== undefined
  ? (arr[index][field] !== undefined ? arr[index][field] : '') : ''`. -/
def repl1 (data : List (String × Val)) (arrayName idx field : String) : String :=
  match lookupData data arrayName with
  | some (.arr items) =>
    match jsArrayGet items idx with
    | some item =>
      match jsItemGet item field with
      | some v => v
      | none => ""
    | none => ""
  | _ => ""

/-- Replacement callback of pass 2 (`{{array[i]}}`); the returned element
is coerced to a string by `String.replace`. -/
def repl2 (data : List (String × Val)) (arrayName idx : String) : String :=
  match lookupData data arrayName with
  | some (.arr items) =>
    match jsArrayGet items idx with
    | some item => itemToString item
    | none => ""
  | _ => ""

/-- Replacement callback of pass 3 (`{{key}}`). -/
def repl3 (data : List (String × Val)) (key : String) : String :=
  match lookupData data key with
  | some v => valToString v
  | none => ""

/-- One pass step: replacement text and remainder if a match starts here. -/
def step1 (data : List (String × Val)) (cs : List Char) :
    Option (String × List Char) :=
  (matchP1 cs).map (fun r => (repl1 data r.1 r.2.1 r.2.2.1, r.2.2.2))

/-- One pass step for pattern 2. -/
def step2 (data : List (String × Val)) (cs : List Char) :
    Option (String × List Char) :=
  (matchP2 cs).map (fun r => (repl2 data r.1 r.2.1, r.2.2))

/-- One pass step for pattern 3. -/
def step3 (data : List (String × Val)) (cs : List Char) :
    Option (String × List Char) :=
  (matchP3 cs).map (fun r => (repl3 data r.1, r.2))

/-- Left-to-right global replace, fueled (structural) version.  Every
match consumes at least the two leading braces, so fuel equal to the
input length is always sufficient; `runPassAux_eq_of_le` below shows the
result is fuel-independent from there on. -/
def runPassAux (step : List Char → Option (String × List Char)) :
    Nat → List Char → List Char
  | 0, cs => cs
  | _ + 1, [] => []
  | fuel + 1, c :: cs =>
    match step (c :: cs) with
    | some (s, rest) => s.data ++ runPassAux step fuel rest
    | none => c :: runPassAux step fuel cs

/-- Left-to-right global replace over a character list. -/
def runPass (step : List Char → Option (String × List Char))
    (cs : List Char) : List Char :=
  runPassAux step cs.length cs

/-- `interpolate` of `pdfReportService.ts`, identical to `_interpolate` of
`FoxitPdfService.js`: the three replacement passes in order. -/
def interpolate (template : String) (data : List (String × Val)) : String :=
  String.mk
    (runPass (step3 data) (runPass (step2 data) (runPass (step1 data) template.data)))

example : interpolate ("") [] = "" := rfl

-- Concrete checks of the interpolation model against hand-executed JS.
example : interpolate ("\x7b\x7ba[0].b\x7d\x7d") [(("a"), Val.arr [Item.obj [(("b"), ("v"))]])] = "v" := rfl
example : interpolate ("\x7b\x7ba[1]\x7d\x7d") [(("a"), Val.arr [Item.str ("x")])] = "" := rfl
example : interpolate ("\x7b\x7ba[0]\x7d\x7d") [(("a"), Val.arr [Item.str ("x")])] = "x" := rfl
example : interpolate ("\x7b\x7bx\x7d\x7d!") [(("x"), Val.str ("hi"))] = "hi!" := rfl
example : interpolate ("\x7b\x7bx\x7d\x7d") [] = "" := rfl
example : interpolate ("\x7b\x7ba[00]\x7d\x7d") [(("a"), Val.arr [Item.str ("x")])] = "" := rfl
example : interpolate ("\x7b\x7ba[\x7b\x7bi\x7d\x7d].b\x7d\x7d")
    [(("i"), Val.str ("0")), (("a"), Val.arr [Item.obj [(("b"), ("v"))]])]
    = "\x7b\x7ba[0].b\x7d\x7d" := rfl
example : interpolate ("\x7b\x7ba[0].b\x7d\x7d")
    [(("i"), Val.str ("0")), (("a"), Val.arr [Item.obj [(("b"), ("v"))]])]
    = "v" := rfl

/-! ## Remote task pipeline model

Both client modules (`FoxitDocumentGenerationClient` and
`FoxitPdfServicesClient`, in their JS and TS variants) drive the same
4-step flow: upload → trigger task → poll until terminal → download.
The remote service's behaviour for one pipeline invocation is a
`PipelineWorld`; each step consumes the response the remote would return
for it (`Except.error` models a transport/axios failure with its decoded
detail). -/

/-- Poll configuration constants of every client module. -/
def POLL_INTERVAL_MS : Nat := 3000

/-- Overall poll deadline of every client module. -/
def POLL_TIMEOUT_MS : Nat := 120000

/-- JSON body of a successful upload response: the identifier candidates
`res.data?.documentId`, `res.data?.id`, `res.data?.data?.documentId`. -/
structure UploadResp where
  documentId : Option String
  id : Option String
  dataDocumentId : Option String
deriving DecidableEq, Repr

/-- JSON body of a successful task-trigger response: candidates
`res.data?.taskId`, `res.data?.id`, `res.data?.data?.taskId`. -/
structure TriggerResp where
  taskId : Option String
  id : Option String
  dataTaskId : Option String
deriving DecidableEq, Repr

/-- JSON body of a poll response: `{ status, progress, resultDocumentId }`
(`progress` is only logged, so it is not modelled). -/
structure PollResp where
  status : String
  resultDocumentId : Option String
deriving DecidableEq, Repr

/-- `res.data?.documentId ?? res.data?.id ?? res.data?.data?.documentId`. -/
def extractUploadId (r : UploadResp) : Option String :=
  jsNullish r.documentId (jsNullish r.id r.dataDocumentId)

/-- `res.data?.taskId ?? res.data?.id ?? res.data?.data?.taskId`. -/
def extractTaskId (r : TriggerResp) : Option String :=
  jsNullish r.taskId (jsNullish r.id r.dataTaskId)

/-- The distinct failure exits of a client module, one constructor per
`throw new Error(...)` site. -/
inductive ClientError where
  | uploadFailed (detail : String)
  | uploadNoId
  | createTaskFailed (detail : String)
  | noTaskId
  | pollFailed (detail : String)
  | completedNoResult
  | taskFailed (resp : PollResp)
  | timedOut
  | downloadFailed (detail : String)
deriving DecidableEq, Repr

/-- Result of a whole poll loop: the outcome, how many poll requests were
issued, and the wall-clock instant at which the loop exited. -/
structure PollRun where
  outcome : Except ClientError String
  pollCount : Nat
  endTime : Nat
deriving Repr

/-- The `while (Date.now() < deadline)` loop of `pollTask`: issue poll
`n` (taking `dur n` ms), return on a terminal status, otherwise sleep
`POLL_INTERVAL_MS` and re-check the deadline; on loop exit throw the
timeout error. -/
def pollLoop (polls : Nat → Except String PollResp) (dur : Nat → Nat)
    (deadline : Nat) (n : Nat) (now : Nat) : PollRun :=
  if _h : now < deadline then
    match polls n with
    | .error e => ⟨.error (.pollFailed e), n + 1, now + dur n⟩
    | .ok resp =>
      if resp.status == "COMPLETED" then
        match resp.resultDocumentId with
        | none => ⟨.error .completedNoResult, n + 1, now + dur n⟩
        | some s =>
          if s == "" then ⟨.error .completedNoResult, n + 1, now + dur n⟩
          else ⟨.ok s, n + 1, now + dur n⟩
      else if resp.status == "FAILED" then
        ⟨.error (.taskFailed resp), n + 1, now + dur n⟩
      else
        pollLoop polls dur deadline (n + 1) (now + dur n + POLL_INTERVAL_MS)
  else ⟨.error .timedOut, n, now⟩
termination_by deadline - now
decreasing_by simp only [POLL_INTERVAL_MS]; omega

/-- `pollTask` (verbatim-identical in `FoxitDocumentGenerationClient` and
`FoxitPdfServicesClient`, JS and TS variants): fix the deadline at
`start + POLL_TIMEOUT_MS` and run the loop. -/
def pollTask (polls : Nat → Except String PollResp) (dur : Nat → Nat)
    (start : Nat) : PollRun :=
  pollLoop polls dur (start + POLL_TIMEOUT_MS) 0 start

/-- The remote service's behaviour for one pipeline invocation. -/
structure PipelineWorld where
  uploadRes : Except String UploadResp
  triggerRes : Except String TriggerResp
  polls : Nat → Except String PollResp
  pollDur : Nat → Nat
  downloadRes : Except String (List Nat)

namespace FoxitPdfServicesClient

/-- Step 1 of `optimizePdf` (`uploadPdf`): transport failure →
`Upload failed` error; then take the first present identifier candidate
and fail with the no-documentId `Error` when the result is falsy. -/
def uploadPdf (uploadRes : Except String UploadResp) :
    Except ClientError String :=
  match uploadRes with
  | .error e => .error (.uploadFailed e)
  | .ok res =>
    match extractUploadId res with
    | none => .error .uploadNoId
    | some documentId =>
      if documentId == "" then .error .uploadNoId else .ok documentId

/-- Step 2 of `optimizePdf` (`createCompressTask`). -/
def createCompressTask (triggerRes : Except String TriggerResp) :
    Except ClientError String :=
  match triggerRes with
  | .error e => .error (.createTaskFailed e)
  | .ok res =>
    match extractTaskId res with
    | none => .error .noTaskId
    | some taskId =>
      if taskId == "" then .error .noTaskId else .ok taskId

/-- Step 4 of `optimizePdf` (`downloadResult`). -/
def downloadResult (downloadRes : Except String (List Nat)) :
    Except ClientError (List Nat) :=
  match downloadRes with
  | .error e => .error (.downloadFailed e)
  | .ok bytes => .ok bytes

/-- `optimizePdf`: the strict 4-step sequence.  The second component is
the list of steps that were entered (each step logs a `Step n` line on
entry), which records e.g. that the trigger step is never reached when
upload yields no identifier. -/
def optimizePdf (w : PipelineWorld) (start : Nat) :
    Except ClientError (List Nat) × List String :=
  match uploadPdf w.uploadRes with
  | .error e => (.error e, ["upload"])
  | .ok _documentId =>
    match createCompressTask w.triggerRes with
    | .error e => (.error e, ["upload", "trigger"])
    | .ok _taskId =>
      match (pollTask w.polls w.pollDur start).outcome with
      | .error e => (.error e, ["upload", "trigger", "poll"])
      | .ok _resultDocumentId =>
        match downloadResult w.downloadRes with
        | .error e => (.error e, ["upload", "trigger", "poll", "download"])
        | .ok bytes => (.ok bytes, ["upload", "trigger", "poll", "download"])

end FoxitPdfServicesClient

namespace FoxitDocGenClient

/-- Step 1 of `generatePdfFromHtml` (`uploadHtml`); identical identifier
extraction and falsiness check as the PDF-services client. -/
def uploadHtml (uploadRes : Except String UploadResp) :
    Except ClientError String :=
  match uploadRes with
  | .error e => .error (.uploadFailed e)
  | .ok res =>
    match extractUploadId res with
    | none => .error .uploadNoId
    | some documentId =>
      if documentId == "" then .error .uploadNoId else .ok documentId

/-- Step 2 of `generatePdfFromHtml` (`createPdfTask`). -/
def createPdfTask (triggerRes : Except String TriggerResp) :
    Except ClientError String :=
  match triggerRes with
  | .error e => .error (.createTaskFailed e)
  | .ok res =>
    match extractTaskId res with
    | none => .error .noTaskId
    | some taskId =>
      if taskId == "" then .error .noTaskId else .ok taskId

/-- Step 4 of `generatePdfFromHtml` (`downloadResult`). -/
def downloadResult (downloadRes : Except String (List Nat)) :
    Except ClientError (List Nat) :=
  match downloadRes with
  | .error e => .error (.downloadFailed e)
  | .ok bytes => .ok bytes

/-- `generatePdfFromHtml`: upload → create task → poll → download, with
the entered-steps trace. -/
def generatePdfFromHtml (w : PipelineWorld) (start : Nat) :
    Except ClientError (List Nat) × List String :=
  match uploadHtml w.uploadRes with
  | .error e => (.error e, ["upload"])
  | .ok _documentId =>
    match createPdfTask w.triggerRes with
    | .error e => (.error e, ["upload", "trigger"])
    | .ok _taskId =>
      match (pollTask w.polls w.pollDur start).outcome with
      | .error e => (.error e, ["upload", "trigger", "poll"])
      | .ok _resultDocumentId =>
        match downloadResult w.downloadRes with
        | .error e => (.error e, ["upload", "trigger", "poll", "download"])
        | .ok bytes => (.ok bytes, ["upload", "trigger", "poll", "download"])

end FoxitDocGenClient

/-! ## Report orchestrators

The repository holds two alternate orchestrator implementations with the
same public name `generateConversationReport`:

  * `pdfReportService.ts`: stage-2 (compression) failure is caught and
    the uncompressed stage-1 bytes are returned;
  * `FoxitPdfService.js`: stage-2 failure is re-thrown as
    `Stage 2 failed`.

Both are embedded, parameterised over the template-file read result and
the two imported stage functions (the claims' end-to-end scenarios mock
exactly these).  The second component records whether the optimization
stage was entered (the `Stage 2` log line). -/

namespace PdfReportService

/-- `generateConversationReport` of `pdfReportService.ts`: read template,
interpolate, run stage 1 (abort on failure, tagged `Stage 1 failed`),
run stage 2 and fall back to the stage-1 bytes when it fails. -/
def generateConversationReport (readTemplate : Except String String)
    (data : List (String × Val))
    (generatePdfFromHtml : String → Except String (List Nat))
    (optimizePdf : List Nat → Except String (List Nat)) :
    Except String (List Nat) × Bool :=
  match readTemplate with
  | .error e => (.error ("Failed to read HTML template: " ++ e), false)
  | .ok template =>
    let filledHtml := interpolate template data
    match generatePdfFromHtml filledHtml with
    | .error e => (.error ("[PdfReport] Stage 1 failed: " ++ e), false)
    | .ok initialPdf =>
      match optimizePdf initialPdf with
      | .error _e => (.ok initialPdf, true)
      | .ok finalPdf => (.ok finalPdf, true)

end PdfReportService

namespace FoxitPdfService

/-- `FoxitPdfService.generateConversationReport` of `FoxitPdfService.js`:
same stage-1 policy, but stage-2 failure is re-thrown with the
`Stage 2 failed` tag instead of falling back. -/
def generateConversationReport (readTemplate : Except String String)
    (data : List (String × Val))
    (generatePdfFromHtml : String → Except String (List Nat))
    (optimizePdf : List Nat → Except String (List Nat)) :
    Except String (List Nat) × Bool :=
  match readTemplate with
  | .error e =>
    (.error ("[FoxitPdfService] Failed to read HTML template: " ++ e), false)
  | .ok template =>
    let filledHtml := interpolate template data
    match generatePdfFromHtml filledHtml with
    | .error e => (.error ("[FoxitPdfService] Stage 1 failed: " ++ e), false)
    | .ok initialPdfBuffer =>
      match optimizePdf initialPdfBuffer with
      | .error e => (.error ("[FoxitPdfService] Stage 2 failed: " ++ e), true)
      | .ok optimizedPdfBuffer => (.ok optimizedPdfBuffer, true)

end FoxitPdfService

/-! ## Configuration loading

The CommonJS clients validate their environment triple at module load and
throw on any falsy value; the TS clients instead default every missing
value to `""` and proceed.  `env` maps a variable name to its value
(`none` = unset). -/

/-- A loaded configuration triple. -/
structure FoxitEnvConfig where
  base : String
  clientId : String
  clientSecret : String
deriving DecidableEq, Repr

namespace FoxitPdfServicesClientJs

/-- Module-load validation of `FoxitPdfServicesClient.js` (4-step
variant): throw on the first falsy variable, else build `BASE` (trailing
slash stripped) and the auth header pair. -/
def loadEnv (env : String → Option String) : Except String FoxitEnvConfig :=
  if jsFalsyStr (env ("FOXIT_PDFSERVICES_BASE_URL")) then
    .error ("[FoxitPdfServicesClient] FOXIT_PDFSERVICES_BASE_URL is not set")
  else if jsFalsyStr (env ("FOXIT_PDFSERVICES_CLIENT_ID")) then
    .error ("[FoxitPdfServicesClient] FOXIT_PDFSERVICES_CLIENT_ID is not set")
  else if jsFalsyStr (env ("FOXIT_PDFSERVICES_CLIENT_SECRET")) then
    .error ("[FoxitPdfServicesClient] FOXIT_PDFSERVICES_CLIENT_SECRET is not set")
  else
    .ok ⟨stripTrailingSlash ((env ("FOXIT_PDFSERVICES_BASE_URL")).getD ""),
         (env ("FOXIT_PDFSERVICES_CLIENT_ID")).getD "",
         (env ("FOXIT_PDFSERVICES_CLIENT_SECRET")).getD ""⟩

end FoxitPdfServicesClientJs

namespace FoxitDocGenClientJs

/-- Module-load validation of the 4-step `FoxitDocumentGenerationClient`
(CommonJS variant). -/
def loadEnv (env : String → Option String) : Except String FoxitEnvConfig :=
  if jsFalsyStr (env ("FOXIT_DOCGEN_BASE_URL")) then
    .error ("[FoxitDocGenClient] FOXIT_DOCGEN_BASE_URL is not set")
  else if jsFalsyStr (env ("FOXIT_DOCGEN_CLIENT_ID")) then
    .error ("[FoxitDocGenClient] FOXIT_DOCGEN_CLIENT_ID is not set")
  else if jsFalsyStr (env ("FOXIT_DOCGEN_CLIENT_SECRET")) then
    .error ("[FoxitDocGenClient] FOXIT_DOCGEN_CLIENT_SECRET is not set")
  else
    .ok ⟨stripTrailingSlash ((env ("FOXIT_DOCGEN_BASE_URL")).getD ""),
         (env ("FOXIT_DOCGEN_CLIENT_ID")).getD "",
         (env ("FOXIT_DOCGEN_CLIENT_SECRET")).getD ""⟩

end FoxitDocGenClientJs

namespace FoxitDocGenClientTs

/-- `const BASE = (process.env.FOXIT_DOCGEN_BASE_URL || "").replace(/\/$/, "")`
of the TS `FoxitDocumentGenerationClient`: no validation, default `""`. -/
def BASE (env : String → Option String) : String :=
  stripTrailingSlash ((env ("FOXIT_DOCGEN_BASE_URL")).getD "")

/-- `AUTH_HEADERS` of the TS client: missing credentials default to `""`. -/
def AUTH_HEADERS (env : String → Option String) : List (String × String) :=
  [("client_id", (env ("FOXIT_DOCGEN_CLIENT_ID")).getD ""),
   ("client_secret", (env ("FOXIT_DOCGEN_CLIENT_SECRET")).getD "")]

end FoxitDocGenClientTs

namespace FoxitPdfServicesClientTs

/-- `BASE` of the TS `FoxitPdfServicesClient`: no validation, default `""`. -/
def BASE (env : String → Option String) : String :=
  stripTrailingSlash ((env ("FOXIT_PDFSERVICES_BASE_URL")).getD "")

/-- `AUTH_HEADERS` of the TS `FoxitPdfServicesClient`. -/
def AUTH_HEADERS (env : String → Option String) : List (String × String) :=
  [("client_id", (env ("FOXIT_PDFSERVICES_CLIENT_ID")).getD ""),
   ("client_secret", (env ("FOXIT_PDFSERVICES_CLIENT_SECRET")).getD "")]

end FoxitPdfServicesClientTs

/-! ## Scanner infrastructure lemmas -/

/-- A pass step consumes at least one character on a match. -/
def StepShrink (step : List Char → Option (String × List Char)) : Prop :=
  ∀ cs s rest, step cs = some (s, rest) → rest.length < cs.length

theorem length_dropWhile_le (p : Char → Bool) (l : List Char) :
    (l.dropWhile p).length ≤ l.length := by
  induction l with
  | nil => simp [List.dropWhile]
  | cons c cs ih =>
    by_cases h : p c
    · simp [List.dropWhile, h]
      omega
    · simp [List.dropWhile, h]

theorem matchP1_shrink (cs : List Char) (n i f : String) (rest : List Char)
    (h : matchP1 cs = some (n, i, f, rest)) : rest.length < cs.length := by
  rw [matchP1.eq_def] at h
  split at h
  · rename_i rest0
    have hr1 := length_dropWhile_le isWordChar rest0
    split at h
    · exact absurd h (by simp)
    · split at h
      · rename_i r2 heq2
        have hr3 := length_dropWhile_le Char.isDigit r2
        split at h
        · exact absurd h (by simp)
        · split at h
          · rename_i r4 heq4
            have hr5 := length_dropWhile_le isWordChar r4
            split at h
            · exact absurd h (by simp)
            · split at h
              · rename_i r6 heq6
                simp only [Option.some.injEq, Prod.mk.injEq] at h
                obtain ⟨-, -, -, h4⟩ := h
                subst h4
                have e2 : r2.length + 1 ≤ rest0.length := by
                  rw [heq2] at hr1; simpa using hr1
                have e4 : r4.length + 2 ≤ r2.length := by
                  rw [heq4] at hr3; simpa using hr3
                have e6 : r6.length + 2 ≤ r4.length := by
                  rw [heq6] at hr5; simpa using hr5
                simp only [List.length_cons]
                omega
              · exact absurd h (by simp)
          · exact absurd h (by simp)
      · exact absurd h (by simp)
  · exact absurd h (by simp)

theorem matchP2_shrink (cs : List Char) (n i : String) (rest : List Char)
    (h : matchP2 cs = some (n, i, rest)) : rest.length < cs.length := by
  rw [matchP2.eq_def] at h
  split at h
  · rename_i rest0
    have hr1 := length_dropWhile_le isWordChar rest0
    split at h
    · exact absurd h (by simp)
    · split at h
      · rename_i r2 heq2
        have hr3 := length_dropWhile_le Char.isDigit r2
        split at h
        · exact absurd h (by simp)
        · split at h
          · rename_i r4 heq4
            simp only [Option.some.injEq, Prod.mk.injEq] at h
            obtain ⟨-, -, h3⟩ := h
            subst h3
            have e2 : r2.length + 1 ≤ rest0.length := by
              rw [heq2] at hr1; simpa using hr1
            have e4 : r4.length + 3 ≤ r2.length := by
              rw [heq4] at hr3; simpa using hr3
            simp only [List.length_cons]
            omega
          · exact absurd h (by simp)
      · exact absurd h (by simp)
  · exact absurd h (by simp)

theorem matchP3_shrink (cs : List Char) (n : String) (rest : List Char)
    (h : matchP3 cs = some (n, rest)) : rest.length < cs.length := by
  rw [matchP3.eq_def] at h
  split at h
  · rename_i rest0
    have hr1 := length_dropWhile_le isWordChar rest0
    split at h
    · exact absurd h (by simp)
    · split at h
      · rename_i r2 heq2
        simp only [Option.some.injEq, Prod.mk.injEq] at h
        obtain ⟨-, h2⟩ := h
        subst h2
        have e2 : r2.length + 2 ≤ rest0.length := by
          rw [heq2] at hr1; simpa using hr1
        simp only [List.length_cons]
        omega
      · exact absurd h (by simp)
  · exact absurd h (by simp)

theorem step1_shrink (data : List (String × Val)) : StepShrink (step1 data) := by
  intro cs s rest h
  simp only [step1, Option.map_eq_some'] at h
  obtain ⟨⟨n, i, f, r⟩, hm, heq⟩ := h
  obtain ⟨-, rfl⟩ : s = repl1 data n i f ∧ rest = r := by
    simpa [eq_comm] using heq
  exact matchP1_shrink _ _ _ _ _ hm

theorem step2_shrink (data : List (String × Val)) : StepShrink (step2 data) := by
  intro cs s rest h
  simp only [step2, Option.map_eq_some'] at h
  obtain ⟨⟨n, i, r⟩, hm, heq⟩ := h
  obtain ⟨-, rfl⟩ : s = repl2 data n i ∧ rest = r := by
    simpa [eq_comm] using heq
  exact matchP2_shrink _ _ _ _ hm

theorem step3_shrink (data : List (String × Val)) : StepShrink (step3 data) := by
  intro cs s rest h
  simp only [step3, Option.map_eq_some'] at h
  obtain ⟨⟨n, r⟩, hm, heq⟩ := h
  obtain ⟨-, rfl⟩ : s = repl3 data n ∧ rest = r := by
    simpa [eq_comm] using heq
  exact matchP3_shrink _ _ _ hm

theorem runPassAux_fuel_irrel (step : List Char → Option (String × List Char))
    (hstep : StepShrink step) :
    ∀ (f g : Nat) (cs : List Char), cs.length ≤ f → cs.length ≤ g →
      runPassAux step f cs = runPassAux step g cs := by
  intro f
  induction f with
  | zero =>
    intro g cs hf _
    have : cs = [] := List.eq_nil_of_length_eq_zero (Nat.le_zero.mp hf)
    subst this
    cases g <;> rfl
  | succ f ih =>
    intro g cs hf hg
    cases g with
    | zero =>
      have : cs = [] := List.eq_nil_of_length_eq_zero (Nat.le_zero.mp hg)
      subst this
      rfl
    | succ g =>
      cases cs with
      | nil => rfl
      | cons c cs' =>
        simp only [runPassAux]
        cases hm : step (c :: cs') with
        | none =>
          simp only []
          have hlen : cs'.length ≤ f := by simpa using hf
          have hlen' : cs'.length ≤ g := by simpa using hg
          rw [ih g cs' hlen hlen']
        | some pr =>
          rcases pr with ⟨s, rest⟩
          simp only []
          have hr := hstep _ _ _ hm
          have hlen : rest.length ≤ f := by
            simp only [List.length_cons] at hr hf; omega
          have hlen' : rest.length ≤ g := by
            simp only [List.length_cons] at hr hg; omega
          rw [ih g rest hlen hlen']

theorem runPass_nil (step : List Char → Option (String × List Char)) :
    runPass step [] = [] := rfl

theorem runPass_cons_none (step : List Char → Option (String × List Char))
    (c : Char) (cs : List Char) (h : step (c :: cs) = none) :
    runPass step (c :: cs) = c :: runPass step cs := by
  simp only [runPass, List.length_cons, runPassAux, h]

theorem runPass_eq_some (step : List Char → Option (String × List Char))
    (hstep : StepShrink step) (cs : List Char) (s : String) (rest : List Char)
    (h : step cs = some (s, rest)) :
    runPass step cs = s.data ++ runPass step rest := by
  have hr := hstep _ _ _ h
  cases cs with
  | nil => simp at hr
  | cons c cs' =>
    simp only [runPass, List.length_cons, runPassAux, h]
    congr 1
    exact runPassAux_fuel_irrel step hstep cs'.length rest.length rest
      (by simp only [List.length_cons] at hr; omega) le_rfl

theorem runPass_append_noLB (step : List Char → Option (String × List Char))
    (hhead : ∀ c cs, c ≠ '{' → step (c :: cs) = none)
    (l r : List Char) (hl : '{' ∉ l) :
    runPass step (l ++ r) = l ++ runPass step r := by
  induction l with
  | nil => rfl
  | cons c l' ih =>
    have hc : c ≠ '{' := fun hc => hl (hc ▸ List.mem_cons_self c l')
    have hl' : '{' ∉ l' := fun hm => hl (List.mem_cons_of_mem c hm)
    rw [List.cons_append, runPass_cons_none step c (l' ++ r) (hhead c _ hc), ih hl']
    rfl

theorem runPass_noLB (step : List Char → Option (String × List Char))
    (hhead : ∀ c cs, c ≠ '{' → step (c :: cs) = none)
    (l : List Char) (hl : '{' ∉ l) : runPass step l = l := by
  have := runPass_append_noLB step hhead l [] hl
  simpa [runPass, runPassAux] using this

/-! ## Character-class facts and matcher head lemmas -/

theorem isWordChar_ne_special (c : Char) (h : isWordChar c = true) :
    c ≠ '{' ∧ c ≠ '}' ∧ c ≠ '[' ∧ c ≠ ']' ∧ c ≠ '.' := by
  refine ⟨?_, ?_, ?_, ?_, ?_⟩ <;> (rintro rfl; revert h; decide)

theorem isDigit_isWordChar (c : Char) (h : c.isDigit = true) :
    isWordChar c = true := by
  simp [isWordChar, Char.isAlphanum, h]

theorem matchP1_head_ne (c : Char) (cs : List Char) (h : c ≠ '{') :
    matchP1 (c :: cs) = none := by
  rw [matchP1.eq_def]
  split
  · rename_i heq
    injection heq with h1 _
    exact absurd h1 h
  · rfl

theorem matchP2_head_ne (c : Char) (cs : List Char) (h : c ≠ '{') :
    matchP2 (c :: cs) = none := by
  rw [matchP2.eq_def]
  split
  · rename_i heq
    injection heq with h1 _
    exact absurd h1 h
  · rfl

theorem matchP3_head_ne (c : Char) (cs : List Char) (h : c ≠ '{') :
    matchP3 (c :: cs) = none := by
  rw [matchP3.eq_def]
  split
  · rename_i heq
    injection heq with h1 _
    exact absurd h1 h
  · rfl

theorem matchP1_snd_ne (c : Char) (cs : List Char) (h : c ≠ '{') :
    matchP1 ('{' :: c :: cs) = none := by
  rw [matchP1.eq_def]
  split
  · rename_i heq
    injection heq with _ h2
    injection h2 with h2 _
    exact absurd h2 h
  · rfl

theorem matchP2_snd_ne (c : Char) (cs : List Char) (h : c ≠ '{') :
    matchP2 ('{' :: c :: cs) = none := by
  rw [matchP2.eq_def]
  split
  · rename_i heq
    injection heq with _ h2
    injection h2 with h2 _
    exact absurd h2 h
  · rfl

theorem matchP3_snd_ne (c : Char) (cs : List Char) (h : c ≠ '{') :
    matchP3 ('{' :: c :: cs) = none := by
  rw [matchP3.eq_def]
  split
  · rename_i heq
    injection heq with _ h2
    injection h2 with h2 _
    exact absurd h2 h
  · rfl

theorem step1_head_ne (data : List (String × Val)) :
    ∀ c cs, c ≠ '{' → step1 data (c :: cs) = none := by
  intro c cs h
  simp [step1, matchP1_head_ne c cs h]

theorem step2_head_ne (data : List (String × Val)) :
    ∀ c cs, c ≠ '{' → step2 data (c :: cs) = none := by
  intro c cs h
  simp [step2, matchP2_head_ne c cs h]

theorem step3_head_ne (data : List (String × Val)) :
    ∀ c cs, c ≠ '{' → step3 data (c :: cs) = none := by
  intro c cs h
  simp [step3, matchP3_head_ne c cs h]

/-! ## Token shapes of the three grammar patterns -/

/-- The characters of a `{{name[idx].field}}` token. -/
def tokenP1 (name idx field : String) : List Char :=
  '{' :: '{' ::
    (name.data ++ ('[' :: (idx.data ++ (']' :: '.' :: (field.data ++ ['}', '}'])))))

/-- The characters of a `{{name[idx]}}` token. -/
def tokenP2 (name idx : String) : List Char :=
  '{' :: '{' :: (name.data ++ ('[' :: (idx.data ++ [']', '}', '}'])))

/-- The characters of a `{{name}}` token. -/
def tokenP3 (name : String) : List Char :=
  '{' :: '{' :: (name.data ++ ['}', '}'])

/-- A nonempty `\w+` capture. -/
def wordStr (s : String) : Bool := !s.data.isEmpty && s.data.all isWordChar

/-- A nonempty `\d+` capture. -/
def digitStr (s : String) : Bool := !s.data.isEmpty && s.data.all Char.isDigit

theorem takeWhile_append_all (p : Char → Bool) (l r : List Char)
    (hl : ∀ c ∈ l, p c = true) (hr : ∀ c cs, r = c :: cs → p c = false) :
    (l ++ r).takeWhile p = l ∧ (l ++ r).dropWhile p = r := by
  induction l with
  | nil =>
    cases r with
    | nil => simp [List.takeWhile, List.dropWhile]
    | cons c cs => simp [List.takeWhile, List.dropWhile, hr c cs rfl]
  | cons a l' ih =>
    have ha : p a = true := hl a (List.mem_cons_self a l')
    have ih' := ih (fun c hc => hl c (List.mem_cons_of_mem a hc))
    simp only [List.cons_append, List.takeWhile_cons, List.dropWhile_cons, ha,
      if_true]
    exact ⟨by rw [ih'.1], by simpa [ha] using ih'.2⟩

theorem wordStr_facts (s : String) (h : wordStr s = true) :
    ¬s.data.isEmpty = true ∧ ∀ c ∈ s.data, isWordChar c = true := by
  have := h
  simp only [wordStr, Bool.and_eq_true, Bool.not_eq_true', List.all_eq_true] at this
  exact ⟨by simp [this.1], this.2⟩

theorem digitStr_facts (s : String) (h : digitStr s = true) :
    ¬s.data.isEmpty = true ∧ ∀ c ∈ s.data, Char.isDigit c = true := by
  have := h
  simp only [digitStr, Bool.and_eq_true, Bool.not_eq_true', List.all_eq_true] at this
  exact ⟨by simp [this.1], this.2⟩

theorem matchP2_fire (name idx : String) (rest : List Char)
    (hn : wordStr name = true) (hi : digitStr idx = true) :
    matchP2 (tokenP2 name idx ++ rest) = some (name, idx, rest) := by
  obtain ⟨hne, hw⟩ := wordStr_facts name hn
  obtain ⟨hie, hd⟩ := digitStr_facts idx hi
  have hshape : tokenP2 name idx ++ rest
      = '{' :: '{' :: (name.data ++ ('[' :: (idx.data ++ (']' :: '}' :: '}' :: rest)))) := by
    simp [tokenP2]
  rw [hshape]
  have hs1 := takeWhile_append_all isWordChar name.data
    ('[' :: (idx.data ++ (']' :: '}' :: '}' :: rest))) hw
    (by intro c cs hceq; injection hceq with h1 _; subst h1; decide)
  have hs2 := takeWhile_append_all Char.isDigit idx.data
    (']' :: '}' :: '}' :: rest) hd
    (by intro c cs hceq; injection hceq with h1 _; subst h1; decide)
  simp only [matchP2, hs1.1, hs1.2, hs2.1, hs2.2, hne, if_false]
  simp [hne, hie]

theorem matchP1_fire (name idx field : String) (rest : List Char)
    (hn : wordStr name = true) (hi : digitStr idx = true)
    (hf : wordStr field = true) :
    matchP1 (tokenP1 name idx field ++ rest) = some (name, idx, field, rest) := by
  obtain ⟨hne, hw⟩ := wordStr_facts name hn
  obtain ⟨hie, hd⟩ := digitStr_facts idx hi
  obtain ⟨hfe, hfw⟩ := wordStr_facts field hf
  have hshape : tokenP1 name idx field ++ rest
      = '{' :: '{' ::
        (name.data ++ ('[' :: (idx.data ++ (']' :: '.' ::
          (field.data ++ ('}' :: '}' :: rest)))))) := by
    simp [tokenP1]
  rw [hshape]
  have hs1 := takeWhile_append_all isWordChar name.data
    ('[' :: (idx.data ++ (']' :: '.' :: (field.data ++ ('}' :: '}' :: rest))))) hw
    (by intro c cs hceq; injection hceq with h1 _; subst h1; decide)
  have hs2 := takeWhile_append_all Char.isDigit idx.data
    (']' :: '.' :: (field.data ++ ('}' :: '}' :: rest))) hd
    (by intro c cs hceq; injection hceq with h1 _; subst h1; decide)
  have hs3 := takeWhile_append_all isWordChar field.data ('}' :: '}' :: rest) hfw
    (by intro c cs hceq; injection hceq with h1 _; subst h1; decide)
  simp only [matchP1, hs1.1, hs1.2, hs2.1, hs2.2, hs3.1, hs3.2]
  simp [hne, hie, hfe]

theorem matchP3_fire (name : String) (rest : List Char)
    (hn : wordStr name = true) :
    matchP3 (tokenP3 name ++ rest) = some (name, rest) := by
  obtain ⟨hne, hw⟩ := wordStr_facts name hn
  have hshape : tokenP3 name ++ rest
      = '{' :: '{' :: (name.data ++ ('}' :: '}' :: rest)) := by
    simp [tokenP3]
  rw [hshape]
  have hs1 := takeWhile_append_all isWordChar name.data ('}' :: '}' :: rest) hw
    (by intro c cs hceq; injection hceq with h1 _; subst h1; decide)
  simp only [matchP3, hs1.1, hs1.2]
  simp [hne]

theorem matchP1_tokenP2_none (name idx : String) (rest : List Char)
    (hn : wordStr name = true) (hi : digitStr idx = true) :
    matchP1 (tokenP2 name idx ++ rest) = none := by
  obtain ⟨hne, hw⟩ := wordStr_facts name hn
  obtain ⟨hie, hd⟩ := digitStr_facts idx hi
  have hshape : tokenP2 name idx ++ rest
      = '{' :: '{' :: (name.data ++ ('[' :: (idx.data ++ (']' :: '}' :: '}' :: rest)))) := by
    simp [tokenP2]
  rw [hshape]
  have hs1 := takeWhile_append_all isWordChar name.data
    ('[' :: (idx.data ++ (']' :: '}' :: '}' :: rest))) hw
    (by intro c cs hceq; injection hceq with h1 _; subst h1; decide)
  have hs2 := takeWhile_append_all Char.isDigit idx.data
    (']' :: '}' :: '}' :: rest) hd
    (by intro c cs hceq; injection hceq with h1 _; subst h1; decide)
  simp only [matchP1, hs1.1, hs1.2, hs2.1, hs2.2]
  simp [hne, hie]

theorem matchP3_tokenP2_none (name idx : String) (rest : List Char)
    (hn : wordStr name = true) :
    matchP3 (tokenP2 name idx ++ rest) = none := by
  obtain ⟨hne, hw⟩ := wordStr_facts name hn
  have hshape : tokenP2 name idx ++ rest
      = '{' :: '{' :: (name.data ++ ('[' :: (idx.data ++ (']' :: '}' :: '}' :: rest)))) := by
    simp [tokenP2]
  rw [hshape]
  have hs1 := takeWhile_append_all isWordChar name.data
    ('[' :: (idx.data ++ (']' :: '}' :: '}' :: rest))) hw
    (by intro c cs hceq; injection hceq with h1 _; subst h1; decide)
  simp only [matchP3, hs1.1, hs1.2]
  simp [hne]

theorem matchP1_tokenP3_none (name : String) (rest : List Char)
    (hn : wordStr name = true) :
    matchP1 (tokenP3 name ++ rest) = none := by
  obtain ⟨hne, hw⟩ := wordStr_facts name hn
  have hshape : tokenP3 name ++ rest
      = '{' :: '{' :: (name.data ++ ('}' :: '}' :: rest)) := by
    simp [tokenP3]
  rw [hshape]
  have hs1 := takeWhile_append_all isWordChar name.data ('}' :: '}' :: rest) hw
    (by intro c cs hceq; injection hceq with h1 _; subst h1; decide)
  simp only [matchP1, hs1.1, hs1.2]
  simp [hne]

theorem matchP2_tokenP3_none (name : String) (rest : List Char)
    (hn : wordStr name = true) :
    matchP2 (tokenP3 name ++ rest) = none := by
  obtain ⟨hne, hw⟩ := wordStr_facts name hn
  have hshape : tokenP3 name ++ rest
      = '{' :: '{' :: (name.data ++ ('}' :: '}' :: rest)) := by
    simp [tokenP3]
  rw [hshape]
  have hs1 := takeWhile_append_all isWordChar name.data ('}' :: '}' :: rest) hw
    (by intro c cs hceq; injection hceq with h1 _; subst h1; decide)
  simp only [matchP2, hs1.1, hs1.2]
  simp [hne]

theorem matchP2_tokenP1_none (name idx field : String) (rest : List Char)
    (hn : wordStr name = true) (hi : digitStr idx = true) :
    matchP2 (tokenP1 name idx field ++ rest) = none := by
  obtain ⟨hne, hw⟩ := wordStr_facts name hn
  obtain ⟨hie, hd⟩ := digitStr_facts idx hi
  have hshape : tokenP1 name idx field ++ rest
      = '{' :: '{' ::
        (name.data ++ ('[' :: (idx.data ++ (']' :: '.' ::
          (field.data ++ ('}' :: '}' :: rest)))))) := by
    simp [tokenP1]
  rw [hshape]
  have hs1 := takeWhile_append_all isWordChar name.data
    ('[' :: (idx.data ++ (']' :: '.' :: (field.data ++ ('}' :: '}' :: rest))))) hw
    (by intro c cs hceq; injection hceq with h1 _; subst h1; decide)
  have hs2 := takeWhile_append_all Char.isDigit idx.data
    (']' :: '.' :: (field.data ++ ('}' :: '}' :: rest))) hd
    (by intro c cs hceq; injection hceq with h1 _; subst h1; decide)
  simp only [matchP2, hs1.1, hs1.2, hs2.1, hs2.2]
  simp [hne, hie]

theorem matchP3_tokenP1_none (name idx field : String) (rest : List Char)
    (hn : wordStr name = true) :
    matchP3 (tokenP1 name idx field ++ rest) = none := by
  obtain ⟨hne, hw⟩ := wordStr_facts name hn
  have hshape : tokenP1 name idx field ++ rest
      = '{' :: '{' ::
        (name.data ++ ('[' :: (idx.data ++ (']' :: '.' ::
          (field.data ++ ('}' :: '}' :: rest)))))) := by
    simp [tokenP1]
  rw [hshape]
  have hs1 := takeWhile_append_all isWordChar name.data
    ('[' :: (idx.data ++ (']' :: '.' :: (field.data ++ ('}' :: '}' :: rest))))) hw
    (by intro c cs hceq; injection hceq with h1 _; subst h1; decide)
  simp only [matchP3, hs1.1, hs1.2]
  simp [hne]

/-- Copying a grammar token that the current pass does not match: the
scanner fails at its two leading braces and the brace-free body, so the
token passes through verbatim. -/
theorem runPass_copy_token (step : List Char → Option (String × List Char))
    (hhead : ∀ c cs, c ≠ '{' → step (c :: cs) = none)
    (hsnd : ∀ c cs, c ≠ '{' → step ('{' :: c :: cs) = none)
    (body rest : List Char) (hb : '{' ∉ body) (hne : body ≠ [])
    (h0 : step ('{' :: '{' :: (body ++ rest)) = none) :
    runPass step (('{' :: '{' :: body) ++ rest)
      = ('{' :: '{' :: body) ++ runPass step rest := by
  obtain ⟨c0, bs, rfl⟩ := List.exists_cons_of_ne_nil hne
  have hc0 : c0 ≠ '{' := fun h => hb (h ▸ List.mem_cons_self _ _)
  have e1 : (('{' :: '{' :: (c0 :: bs)) ++ rest)
      = '{' :: ('{' :: (c0 :: (bs ++ rest))) := by simp
  rw [e1, runPass_cons_none step _ _ (by simpa using h0),
    runPass_cons_none step _ _ (hsnd c0 (bs ++ rest) hc0)]
  have : (c0 :: (bs ++ rest)) = (c0 :: bs) ++ rest := by simp
  rw [this, runPass_append_noLB step hhead (c0 :: bs) rest hb]
  simp

theorem step1_snd_ne (data : List (String × Val)) :
    ∀ c cs, c ≠ '{' → step1 data ('{' :: c :: cs) = none := by
  intro c cs h
  simp [step1, matchP1_snd_ne c cs h]

theorem step2_snd_ne (data : List (String × Val)) :
    ∀ c cs, c ≠ '{' → step2 data ('{' :: c :: cs) = none := by
  intro c cs h
  simp [step2, matchP2_snd_ne c cs h]

theorem step3_snd_ne (data : List (String × Val)) :
    ∀ c cs, c ≠ '{' → step3 data ('{' :: c :: cs) = none := by
  intro c cs h
  simp [step3, matchP3_snd_ne c cs h]

theorem word_data_noLB (s : String) (h : wordStr s = true) : '{' ∉ s.data :=
  fun hm => (isWordChar_ne_special _ ((wordStr_facts s h).2 _ hm)).1 rfl

theorem digit_data_noLB (s : String) (h : digitStr s = true) : '{' ∉ s.data :=
  fun hm =>
    (isWordChar_ne_special _ (isDigit_isWordChar _ ((digitStr_facts s h).2 _ hm))).1 rfl

theorem noLB_append (l1 l2 : List Char) (h1 : '{' ∉ l1) (h2 : '{' ∉ l2) :
    '{' ∉ l1 ++ l2 := by
  simp only [List.mem_append, not_or]
  exact ⟨h1, h2⟩

theorem noLB_cons (c : Char) (l : List Char) (hc : c ≠ '{') (h : '{' ∉ l) :
    '{' ∉ c :: l := by
  simp only [List.mem_cons, not_or]
  exact ⟨fun he => hc he.symm, h⟩

theorem tokenP1_body_noLB (n i f : String) (hn : wordStr n = true)
    (hi : digitStr i = true) (hf : wordStr f = true) :
    '{' ∉ (n.data ++ ('[' :: (i.data ++ (']' :: '.' :: (f.data ++ ['}', '}']))))) :=
  noLB_append _ _ (word_data_noLB n hn)
    (noLB_cons _ _ (by decide)
      (noLB_append _ _ (digit_data_noLB i hi)
        (noLB_cons _ _ (by decide)
          (noLB_cons _ _ (by decide)
            (noLB_append _ _ (word_data_noLB f hf) (by decide))))))

theorem tokenP2_body_noLB (n i : String) (hn : wordStr n = true)
    (hi : digitStr i = true) :
    '{' ∉ (n.data ++ ('[' :: (i.data ++ [']', '}', '}']))) :=
  noLB_append _ _ (word_data_noLB n hn)
    (noLB_cons _ _ (by decide)
      (noLB_append _ _ (digit_data_noLB i hi) (by decide)))

theorem tokenP3_body_noLB (n : String) (hn : wordStr n = true) :
    '{' ∉ (n.data ++ ['}', '}']) :=
  noLB_append _ _ (word_data_noLB n hn) (by decide)

theorem runPass1_copy_tokenP2 (data : List (String × Val)) (n i : String)
    (rest : List Char) (hn : wordStr n = true) (hi : digitStr i = true) :
    runPass (step1 data) (tokenP2 n i ++ rest)
      = tokenP2 n i ++ runPass (step1 data) rest := by
  have h0 : step1 data ('{' :: '{' :: ((n.data ++ ('[' :: (i.data ++ [']', '}', '}']))) ++ rest)) = none := by
    have := matchP1_tokenP2_none n i rest hn hi
    simp only [tokenP2, List.cons_append, List.append_assoc, List.nil_append] at this
    simp [step1, this]
  have := runPass_copy_token (step1 data) (step1_head_ne data) (step1_snd_ne data)
    _ rest (tokenP2_body_noLB n i hn hi) (by simp) h0
  simpa [tokenP2] using this

theorem runPass1_copy_tokenP3 (data : List (String × Val)) (n : String)
    (rest : List Char) (hn : wordStr n = true) :
    runPass (step1 data) (tokenP3 n ++ rest)
      = tokenP3 n ++ runPass (step1 data) rest := by
  have h0 : step1 data ('{' :: '{' :: ((n.data ++ ['}', '}']) ++ rest)) = none := by
    have := matchP1_tokenP3_none n rest hn
    simp only [tokenP3, List.cons_append, List.append_assoc, List.nil_append] at this
    simp [step1, this]
  have := runPass_copy_token (step1 data) (step1_head_ne data) (step1_snd_ne data)
    _ rest (tokenP3_body_noLB n hn) (by simp) h0
  simpa [tokenP3] using this

theorem runPass2_copy_tokenP1 (data : List (String × Val)) (n i f : String)
    (rest : List Char) (hn : wordStr n = true) (hi : digitStr i = true)
    (hf : wordStr f = true) :
    runPass (step2 data) (tokenP1 n i f ++ rest)
      = tokenP1 n i f ++ runPass (step2 data) rest := by
  have h0 : step2 data ('{' :: '{' :: ((n.data ++ ('[' :: (i.data ++ (']' :: '.' :: (f.data ++ ['}', '}']))))) ++ rest)) = none := by
    have := matchP2_tokenP1_none n i f rest hn hi
    simp only [tokenP1, List.cons_append, List.append_assoc, List.nil_append] at this
    simp [step2, this]
  have := runPass_copy_token (step2 data) (step2_head_ne data) (step2_snd_ne data)
    _ rest (tokenP1_body_noLB n i f hn hi hf) (by simp) h0
  simpa [tokenP1] using this

theorem runPass2_copy_tokenP3 (data : List (String × Val)) (n : String)
    (rest : List Char) (hn : wordStr n = true) :
    runPass (step2 data) (tokenP3 n ++ rest)
      = tokenP3 n ++ runPass (step2 data) rest := by
  have h0 : step2 data ('{' :: '{' :: ((n.data ++ ['}', '}']) ++ rest)) = none := by
    have := matchP2_tokenP3_none n rest hn
    simp only [tokenP3, List.cons_append, List.append_assoc, List.nil_append] at this
    simp [step2, this]
  have := runPass_copy_token (step2 data) (step2_head_ne data) (step2_snd_ne data)
    _ rest (tokenP3_body_noLB n hn) (by simp) h0
  simpa [tokenP3] using this

theorem runPass3_copy_tokenP1 (data : List (String × Val)) (n i f : String)
    (rest : List Char) (hn : wordStr n = true) (hi : digitStr i = true)
    (hf : wordStr f = true) :
    runPass (step3 data) (tokenP1 n i f ++ rest)
      = tokenP1 n i f ++ runPass (step3 data) rest := by
  have h0 : step3 data ('{' :: '{' :: ((n.data ++ ('[' :: (i.data ++ (']' :: '.' :: (f.data ++ ['}', '}']))))) ++ rest)) = none := by
    have := matchP3_tokenP1_none n i f rest hn
    simp only [tokenP1, List.cons_append, List.append_assoc, List.nil_append] at this
    simp [step3, this]
  have := runPass_copy_token (step3 data) (step3_head_ne data) (step3_snd_ne data)
    _ rest (tokenP1_body_noLB n i f hn hi hf) (by simp) h0
  simpa [tokenP1] using this

theorem runPass3_copy_tokenP2 (data : List (String × Val)) (n i : String)
    (rest : List Char) (hn : wordStr n = true) (hi : digitStr i = true) :
    runPass (step3 data) (tokenP2 n i ++ rest)
      = tokenP2 n i ++ runPass (step3 data) rest := by
  have h0 : step3 data ('{' :: '{' :: ((n.data ++ ('[' :: (i.data ++ [']', '}', '}']))) ++ rest)) = none := by
    have := matchP3_tokenP2_none n i rest hn
    simp only [tokenP2, List.cons_append, List.append_assoc, List.nil_append] at this
    simp [step3, this]
  have := runPass_copy_token (step3 data) (step3_head_ne data) (step3_snd_ne data)
    _ rest (tokenP2_body_noLB n i hn hi) (by simp) h0
  simpa [tokenP2] using this

theorem runPass1_fire_tokenP1 (data : List (String × Val)) (n i f : String)
    (rest : List Char) (hn : wordStr n = true) (hi : digitStr i = true)
    (hf : wordStr f = true) :
    runPass (step1 data) (tokenP1 n i f ++ rest)
      = (repl1 data n i f).data ++ runPass (step1 data) rest :=
  runPass_eq_some (step1 data) (step1_shrink data) _ _ _
    (by simp [step1, matchP1_fire n i f rest hn hi hf])

theorem runPass2_fire_tokenP2 (data : List (String × Val)) (n i : String)
    (rest : List Char) (hn : wordStr n = true) (hi : digitStr i = true) :
    runPass (step2 data) (tokenP2 n i ++ rest)
      = (repl2 data n i).data ++ runPass (step2 data) rest :=
  runPass_eq_some (step2 data) (step2_shrink data) _ _ _
    (by simp [step2, matchP2_fire n i rest hn hi])

theorem runPass3_fire_tokenP3 (data : List (String × Val)) (n : String)
    (rest : List Char) (hn : wordStr n = true) :
    runPass (step3 data) (tokenP3 n ++ rest)
      = (repl3 data n).data ++ runPass (step3 data) rest :=
  runPass_eq_some (step3 data) (step3_shrink data) _ _ _
    (by simp [step3, matchP3_fire n rest hn])

/-! ## Structured templates

A template is a list of segments: literal stretches and grammar tokens.
`flatten` yields the raw template string the source operates on; the
lemmas below relate the three replacement passes on the flat string to a
per-segment resolution. -/

/-- A token of the grammar. -/
inductive Tok where
  | p1 (name idx field : String)
  | p2 (name idx : String)
  | p3 (name : String)
deriving DecidableEq, Repr

/-- A template segment. -/
inductive Seg where
  | lit (s : String)
  | tok (t : Tok)
deriving DecidableEq, Repr

/-- Characters of a token. -/
def tokChars : Tok → List Char
  | .p1 n i f => tokenP1 n i f
  | .p2 n i => tokenP2 n i
  | .p3 n => tokenP3 n

/-- Characters of a segment. -/
def segChars : Seg → List Char
  | .lit s => s.data
  | .tok t => tokChars t

/-- Characters of a whole template. -/
def flattenChars (tpl : List Seg) : List Char := (tpl.map segChars).flatten

/-- The flat template string. -/
def flatten (tpl : List Seg) : String := ⟨flattenChars tpl⟩

/-- Well-formed captures: nonempty `\w+` names and `\d+` indices. -/
def wfTok : Tok → Bool
  | .p1 n i f => wordStr n && digitStr i && wordStr f
  | .p2 n i => wordStr n && digitStr i
  | .p3 n => wordStr n

/-- The value the source's replacement callback produces for a token. -/
def tokResolve (data : List (String × Val)) : Tok → String
  | .p1 n i f => repl1 data n i f
  | .p2 n i => repl2 data n i
  | .p3 n => repl3 data n

/-- A string free of both curly braces. -/
def braceFree (s : String) : Bool :=
  s.data.all (fun c => !(c == '{') && !(c == '}'))

/-- A segment is render-safe: literals are brace-free, tokens are
well-formed and resolve to brace-free values. -/
def segSafe (data : List (String × Val)) : Seg → Bool
  | .lit s => braceFree s
  | .tok t => wfTok t && braceFree (tokResolve data t)

/-- All segments of the template are render-safe. -/
def renderSafe (data : List (String × Val)) (tpl : List Seg) : Bool :=
  tpl.all (segSafe data)

/-- Effect of pass 1 on a segment. -/
def segStep1 (data : List (String × Val)) : Seg → Seg
  | .tok (.p1 n i f) => .lit (repl1 data n i f)
  | s => s

/-- Effect of pass 2 on a segment. -/
def segStep2 (data : List (String × Val)) : Seg → Seg
  | .tok (.p2 n i) => .lit (repl2 data n i)
  | s => s

/-- Effect of pass 3 on a segment. -/
def segStep3 (data : List (String × Val)) : Seg → Seg
  | .tok (.p3 n) => .lit (repl3 data n)
  | s => s

/-- Full resolution of a segment. -/
def segResolve (data : List (String × Val)) : Seg → String
  | .lit s => s
  | .tok t => tokResolve data t

/-- The fully rendered output of a structured template. -/
def renderAll (data : List (String × Val)) (tpl : List Seg) : String :=
  ⟨(tpl.map (fun seg => (segResolve data seg).data)).flatten⟩

theorem braceFree_noLB (s : String) (h : braceFree s = true) : '{' ∉ s.data := by
  intro hm
  simp only [braceFree, List.all_eq_true] at h
  have := h _ hm
  simp at this

theorem renderSafe_cons (data : List (String × Val)) (seg : Seg)
    (tpl : List Seg) (h : renderSafe data (seg :: tpl) = true) :
    segSafe data seg = true ∧ renderSafe data tpl = true := by
  simpa [renderSafe] using h

theorem flattenChars_cons (seg : Seg) (tpl : List Seg) :
    flattenChars (seg :: tpl) = segChars seg ++ flattenChars tpl := by
  simp [flattenChars]

theorem pass1_flatten (data : List (String × Val)) (tpl : List Seg)
    (hsafe : renderSafe data tpl = true) :
    runPass (step1 data) (flattenChars tpl)
      = flattenChars (tpl.map (segStep1 data)) := by
  induction tpl with
  | nil => rfl
  | cons seg tpl' ih =>
    obtain ⟨hseg, hrest⟩ := renderSafe_cons data seg tpl' hsafe
    rw [flattenChars_cons, List.map_cons, flattenChars_cons]
    cases seg with
    | lit s =>
      have hb : '{' ∉ s.data := braceFree_noLB s (by simpa [segSafe] using hseg)
      rw [show segChars (Seg.lit s) = s.data from rfl] at *
      rw [runPass_append_noLB (step1 data) (step1_head_ne data) s.data _ hb,
        ih hrest]
      rfl
    | tok t =>
      cases t with
      | p1 n i f =>
        obtain ⟨⟨hn, hi⟩, hf⟩ : (wordStr n = true ∧ digitStr i = true) ∧ wordStr f = true := by
          simpa [segSafe, wfTok, Bool.and_assoc, Bool.and_eq_true] using hseg.symm ▸
            (by simp [segSafe, wfTok, Bool.and_eq_true] at hseg; exact ⟨⟨hseg.1.1.1, hseg.1.1.2⟩, hseg.1.2⟩ : (wordStr n = true ∧ digitStr i = true) ∧ wordStr f = true)
        rw [show segChars (Seg.tok (Tok.p1 n i f)) = tokenP1 n i f from rfl,
          runPass1_fire_tokenP1 data n i f _ hn hi hf, ih hrest]
        rfl
      | p2 n i =>
        obtain ⟨hn, hi⟩ : wordStr n = true ∧ digitStr i = true := by
          simp [segSafe, wfTok, Bool.and_eq_true] at hseg
          exact ⟨hseg.1.1, hseg.1.2⟩
        rw [show segChars (Seg.tok (Tok.p2 n i)) = tokenP2 n i from rfl,
          runPass1_copy_tokenP2 data n i _ hn hi, ih hrest]
        rfl
      | p3 n =>
        have hn : wordStr n = true := by
          simp [segSafe, wfTok, Bool.and_eq_true] at hseg
          exact hseg.1
        rw [show segChars (Seg.tok (Tok.p3 n)) = tokenP3 n from rfl,
          runPass1_copy_tokenP3 data n _ hn, ih hrest]
        rfl

theorem pass2_flatten (data : List (String × Val)) (tpl : List Seg)
    (hsafe : renderSafe data tpl = true) :
    runPass (step2 data) (flattenChars tpl)
      = flattenChars (tpl.map (segStep2 data)) := by
  induction tpl with
  | nil => rfl
  | cons seg tpl' ih =>
    obtain ⟨hseg, hrest⟩ := renderSafe_cons data seg tpl' hsafe
    rw [flattenChars_cons, List.map_cons, flattenChars_cons]
    cases seg with
    | lit s =>
      have hb : '{' ∉ s.data := braceFree_noLB s (by simpa [segSafe] using hseg)
      rw [show segChars (Seg.lit s) = s.data from rfl] at *
      rw [runPass_append_noLB (step2 data) (step2_head_ne data) s.data _ hb,
        ih hrest]
      rfl
    | tok t =>
      cases t with
      | p1 n i f =>
        obtain ⟨hn, hi, hf⟩ : wordStr n = true ∧ digitStr i = true ∧ wordStr f = true := by
          simp [segSafe, wfTok, Bool.and_eq_true] at hseg
          exact ⟨hseg.1.1.1, hseg.1.1.2, hseg.1.2⟩
        rw [show segChars (Seg.tok (Tok.p1 n i f)) = tokenP1 n i f from rfl,
          runPass2_copy_tokenP1 data n i f _ hn hi hf, ih hrest]
        rfl
      | p2 n i =>
        obtain ⟨hn, hi⟩ : wordStr n = true ∧ digitStr i = true := by
          simp [segSafe, wfTok, Bool.and_eq_true] at hseg
          exact ⟨hseg.1.1, hseg.1.2⟩
        rw [show segChars (Seg.tok (Tok.p2 n i)) = tokenP2 n i from rfl,
          runPass2_fire_tokenP2 data n i _ hn hi, ih hrest]
        rfl
      | p3 n =>
        have hn : wordStr n = true := by
          simp [segSafe, wfTok, Bool.and_eq_true] at hseg
          exact hseg.1
        rw [show segChars (Seg.tok (Tok.p3 n)) = tokenP3 n from rfl,
          runPass2_copy_tokenP3 data n _ hn, ih hrest]
        rfl

theorem pass3_flatten (data : List (String × Val)) (tpl : List Seg)
    (hsafe : renderSafe data tpl = true) :
    runPass (step3 data) (flattenChars tpl)
      = flattenChars (tpl.map (segStep3 data)) := by
  induction tpl with
  | nil => rfl
  | cons seg tpl' ih =>
    obtain ⟨hseg, hrest⟩ := renderSafe_cons data seg tpl' hsafe
    rw [flattenChars_cons, List.map_cons, flattenChars_cons]
    cases seg with
    | lit s =>
      have hb : '{' ∉ s.data := braceFree_noLB s (by simpa [segSafe] using hseg)
      rw [show segChars (Seg.lit s) = s.data from rfl] at *
      rw [runPass_append_noLB (step3 data) (step3_head_ne data) s.data _ hb,
        ih hrest]
      rfl
    | tok t =>
      cases t with
      | p1 n i f =>
        obtain ⟨hn, hi, hf⟩ : wordStr n = true ∧ digitStr i = true ∧ wordStr f = true := by
          simp [segSafe, wfTok, Bool.and_eq_true] at hseg
          exact ⟨hseg.1.1.1, hseg.1.1.2, hseg.1.2⟩
        rw [show segChars (Seg.tok (Tok.p1 n i f)) = tokenP1 n i f from rfl,
          runPass3_copy_tokenP1 data n i f _ hn hi hf, ih hrest]
        rfl
      | p2 n i =>
        obtain ⟨hn, hi⟩ : wordStr n = true ∧ digitStr i = true := by
          simp [segSafe, wfTok, Bool.and_eq_true] at hseg
          exact ⟨hseg.1.1, hseg.1.2⟩
        rw [show segChars (Seg.tok (Tok.p2 n i)) = tokenP2 n i from rfl,
          runPass3_copy_tokenP2 data n i _ hn hi, ih hrest]
        rfl
      | p3 n =>
        have hn : wordStr n = true := by
          simp [segSafe, wfTok, Bool.and_eq_true] at hseg
          exact hseg.1
        rw [show segChars (Seg.tok (Tok.p3 n)) = tokenP3 n from rfl,
          runPass3_fire_tokenP3 data n _ hn, ih hrest]
        rfl

theorem renderSafe_segStep1 (data : List (String × Val)) (tpl : List Seg)
    (h : renderSafe data tpl = true) :
    renderSafe data (tpl.map (segStep1 data)) = true := by
  induction tpl with
  | nil => rfl
  | cons seg tpl' ih =>
    obtain ⟨hseg, hrest⟩ := renderSafe_cons data seg tpl' h
    have hrest' := ih hrest
    cases seg with
    | lit s => simpa [renderSafe, segStep1, segSafe] using
        And.intro (by simpa [segSafe] using hseg) (by simpa [renderSafe] using hrest')
    | tok t =>
      cases t with
      | p1 n i f =>
        have hb : braceFree (repl1 data n i f) = true := by
          simp [segSafe, wfTok, tokResolve, Bool.and_eq_true] at hseg
          exact hseg.2
        simpa [renderSafe, segStep1, segSafe] using
          And.intro hb (by simpa [renderSafe] using hrest')
      | p2 n i =>
        simpa [renderSafe, segStep1, segSafe] using
          And.intro (by simpa [segSafe] using hseg) (by simpa [renderSafe] using hrest')
      | p3 n =>
        simpa [renderSafe, segStep1, segSafe] using
          And.intro (by simpa [segSafe] using hseg) (by simpa [renderSafe] using hrest')

theorem renderSafe_segStep2 (data : List (String × Val)) (tpl : List Seg)
    (h : renderSafe data tpl = true) :
    renderSafe data (tpl.map (segStep2 data)) = true := by
  induction tpl with
  | nil => rfl
  | cons seg tpl' ih =>
    obtain ⟨hseg, hrest⟩ := renderSafe_cons data seg tpl' h
    have hrest' := ih hrest
    cases seg with
    | lit s => simpa [renderSafe, segStep2, segSafe] using
        And.intro (by simpa [segSafe] using hseg) (by simpa [renderSafe] using hrest')
    | tok t =>
      cases t with
      | p2 n i =>
        have hb : braceFree (repl2 data n i) = true := by
          simp [segSafe, wfTok, tokResolve, Bool.and_eq_true] at hseg
          exact hseg.2
        simpa [renderSafe, segStep2, segSafe] using
          And.intro hb (by simpa [renderSafe] using hrest')
      | p1 n i f =>
        simpa [renderSafe, segStep2, segSafe] using
          And.intro (by simpa [segSafe] using hseg) (by simpa [renderSafe] using hrest')
      | p3 n =>
        simpa [renderSafe, segStep2, segSafe] using
          And.intro (by simpa [segSafe] using hseg) (by simpa [renderSafe] using hrest')

theorem flattenChars_resolved (data : List (String × Val)) (tpl : List Seg) :
    flattenChars (((tpl.map (segStep1 data)).map (segStep2 data)).map (segStep3 data))
      = (tpl.map (fun seg => (segResolve data seg).data)).flatten := by
  have hstep : ∀ s : Seg,
      segStep3 data (segStep2 data (segStep1 data s)) = Seg.lit (segResolve data s) := by
    intro s
    cases s with
    | lit s => rfl
    | tok t => cases t <;> rfl
  induction tpl with
  | nil => rfl
  | cons seg tpl' ih =>
    simp only [List.map_cons]
    rw [hstep, flattenChars_cons, ih, List.flatten_cons]
    rfl

/-- The master rendering lemma: on a render-safe structured template the
three passes of `interpolate` substitute every token with its resolved
value and leave the literals untouched. -/
theorem interpolate_flatten (data : List (String × Val)) (tpl : List Seg)
    (hsafe : renderSafe data tpl = true) :
    interpolate (flatten tpl) data = renderAll data tpl := by
  have h1 := pass1_flatten data tpl hsafe
  have h2 := pass2_flatten data (tpl.map (segStep1 data)) (renderSafe_segStep1 data tpl hsafe)
  have h3 := pass3_flatten data ((tpl.map (segStep1 data)).map (segStep2 data))
    (renderSafe_segStep2 data _ (renderSafe_segStep1 data tpl hsafe))
  show String.mk (runPass (step3 data) (runPass (step2 data)
      (runPass (step1 data) (flatten tpl).data))) = renderAll data tpl
  rw [show (flatten tpl).data = flattenChars tpl from rfl, h1, h2, h3,
    flattenChars_resolved]
  rfl

theorem string_append_data (a b : String) : a ++ b = String.mk (a.data ++ b.data) :=
  rfl

/-- A string without an opening brace is left unchanged by all three
passes: every match starts with two opening braces. -/
theorem interpolate_noLB (s : String) (data : List (String × Val))
    (h : '{' ∉ s.data) : interpolate s data = s := by
  show String.mk (runPass (step3 data) (runPass (step2 data)
      (runPass (step1 data) s.data))) = s
  rw [runPass_noLB _ (step1_head_ne data) _ h,
    runPass_noLB _ (step2_head_ne data) _ h,
    runPass_noLB _ (step3_head_ne data) _ h]

theorem braceFree_mk_append (a b : List Char) :
    braceFree ⟨a ++ b⟩ = (braceFree ⟨a⟩ && braceFree ⟨b⟩) := by
  simp [braceFree, List.all_append]

theorem renderAll_braceFree (data : List (String × Val)) (tpl : List Seg)
    (hsafe : renderSafe data tpl = true) :
    braceFree (renderAll data tpl) = true := by
  induction tpl with
  | nil => rfl
  | cons seg tpl' ih =>
    obtain ⟨hseg, hrest⟩ := renderSafe_cons data seg tpl' hsafe
    have hres : braceFree (segResolve data seg) = true := by
      cases seg with
      | lit s => simpa [segSafe, segResolve] using hseg
      | tok t =>
        simp only [segSafe, Bool.and_eq_true] at hseg
        simpa [segResolve] using hseg.2
    have : renderAll data (seg :: tpl')
        = ⟨(segResolve data seg).data ++ (renderAll data tpl').data⟩ := by
      simp [renderAll]
    rw [this, braceFree_mk_append]
    simp only [Bool.and_eq_true]
    exact ⟨hres, by simpa using ih hrest⟩

/-- Rendering a single well-formed token in a brace-free left context:
the token is replaced by its resolved value (whatever follows is rendered
independently). -/
theorem interpolate_token_context (data : List (String × Val)) (pre : String)
    (t : Tok) (post : String) (hpre : '{' ∉ pre.data) (hwf : wfTok t = true)
    (hval : '{' ∉ (tokResolve data t).data) :
    interpolate ⟨pre.data ++ (tokChars t ++ post.data)⟩ data
      = pre ++ (tokResolve data t ++ interpolate post data) := by
  show String.mk (runPass (step3 data) (runPass (step2 data)
      (runPass (step1 data) (pre.data ++ (tokChars t ++ post.data)))))
    = pre ++ (tokResolve data t ++ interpolate post data)
  rw [runPass_append_noLB _ (step1_head_ne data) _ _ hpre]
  cases t with
  | p1 n i f =>
    obtain ⟨hn, hi, hf⟩ : wordStr n = true ∧ digitStr i = true ∧ wordStr f = true := by
      simp only [wfTok, Bool.and_eq_true] at hwf
      exact ⟨hwf.1.1, hwf.1.2, hwf.2⟩
    have hv : '{' ∉ (repl1 data n i f).data := by simpa [tokResolve] using hval
    rw [show tokChars (Tok.p1 n i f) = tokenP1 n i f from rfl,
      runPass1_fire_tokenP1 data n i f _ hn hi hf,
      show pre.data ++ ((repl1 data n i f).data ++ runPass (step1 data) post.data)
          = (pre.data ++ (repl1 data n i f).data) ++ runPass (step1 data) post.data
        from by simp,
      runPass_append_noLB _ (step2_head_ne data) _ _ (noLB_append _ _ hpre hv),
      runPass_append_noLB _ (step3_head_ne data) _ _ (noLB_append _ _ hpre hv)]
    simp [string_append_data, interpolate, tokResolve]
  | p2 n i =>
    obtain ⟨hn, hi⟩ : wordStr n = true ∧ digitStr i = true := by
      simp only [wfTok, Bool.and_eq_true] at hwf
      exact ⟨hwf.1, hwf.2⟩
    have hv : '{' ∉ (repl2 data n i).data := by simpa [tokResolve] using hval
    rw [show tokChars (Tok.p2 n i) = tokenP2 n i from rfl,
      runPass1_copy_tokenP2 data n i _ hn hi,
      runPass_append_noLB _ (step2_head_ne data) _ _ hpre,
      runPass2_fire_tokenP2 data n i _ hn hi,
      show pre.data ++ ((repl2 data n i).data ++ runPass (step2 data) (runPass (step1 data) post.data))
          = (pre.data ++ (repl2 data n i).data) ++ runPass (step2 data) (runPass (step1 data) post.data)
        from by simp,
      runPass_append_noLB _ (step3_head_ne data) _ _ (noLB_append _ _ hpre hv)]
    simp [string_append_data, interpolate, tokResolve]
  | p3 n =>
    have hn : wordStr n = true := by simpa [wfTok] using hwf
    have hv : '{' ∉ (repl3 data n).data := by simpa [tokResolve] using hval
    rw [show tokChars (Tok.p3 n) = tokenP3 n from rfl,
      runPass1_copy_tokenP3 data n _ hn,
      runPass_append_noLB _ (step2_head_ne data) _ _ hpre,
      runPass2_copy_tokenP3 data n _ hn,
      runPass_append_noLB _ (step3_head_ne data) _ _ hpre,
      runPass3_fire_tokenP3 data n _ hn]
    simp [string_append_data, interpolate, tokResolve]

/-! ## Poll-loop lemmas -/

/-- A poll response that keeps the loop going: transport success with a
non-terminal status. -/
def nonterminal (r : Except String PollResp) : Bool :=
  match r with
  | .ok resp => !(resp.status == "COMPLETED") && !(resp.status == "FAILED")
  | .error _ => false

/-- Wall-clock time consumed by `n` non-terminal loop iterations
starting at poll index `k`: each takes its poll duration plus the sleep
interval. -/
def iterSum (dur : Nat → Nat) (k : Nat) : Nat → Nat
  | 0 => 0
  | n + 1 => dur k + POLL_INTERVAL_MS + iterSum dur (k + 1) n

/-- Instant at which poll `n` is issued (when the loop gets that far). -/
def pollStart (dur : Nat → Nat) (start : Nat) (n : Nat) : Nat :=
  start + iterSum dur 0 n

theorem pollLoop_unfold (polls : Nat → Except String PollResp)
    (dur : Nat → Nat) (deadline n now : Nat) :
    pollLoop polls dur deadline n now
      = if now < deadline then
          match polls n with
          | .error e => ⟨.error (.pollFailed e), n + 1, now + dur n⟩
          | .ok resp =>
            if resp.status == "COMPLETED" then
              match resp.resultDocumentId with
              | none => ⟨.error .completedNoResult, n + 1, now + dur n⟩
              | some s =>
                if s == "" then ⟨.error .completedNoResult, n + 1, now + dur n⟩
                else ⟨.ok s, n + 1, now + dur n⟩
            else if resp.status == "FAILED" then
              ⟨.error (.taskFailed resp), n + 1, now + dur n⟩
            else
              pollLoop polls dur deadline (n + 1) (now + dur n + POLL_INTERVAL_MS)
        else ⟨.error .timedOut, n, now⟩ := by
  rw [pollLoop]
  by_cases h : now < deadline <;> simp [h]

theorem pollLoop_skip (polls : Nat → Except String PollResp) (dur : Nat → Nat)
    (deadline : Nat) :
    ∀ (n k now : Nat), (∀ j, j < n → nonterminal (polls (k + j)) = true) →
      now + iterSum dur k n < deadline →
      pollLoop polls dur deadline k now
        = pollLoop polls dur deadline (k + n) (now + iterSum dur k n) := by
  intro n
  induction n with
  | zero => intro k now _ _; simp [iterSum]
  | succ n ih =>
    intro k now hnt halive
    have hS : iterSum dur k (n + 1) = dur k + POLL_INTERVAL_MS + iterSum dur (k + 1) n := rfl
    have hnow : now < deadline := by
      rw [hS] at halive; simp only [POLL_INTERVAL_MS] at halive; omega
    have h0 : nonterminal (polls k) = true := by
      have := hnt 0 (Nat.succ_pos n)
      simpa using this
    rw [pollLoop_unfold, if_pos hnow]
    cases hp : polls k with
    | error e => rw [hp] at h0; simp [nonterminal] at h0
    | ok resp =>
      have hc : (resp.status == "COMPLETED") = false
          ∧ (resp.status == "FAILED") = false := by
        rw [hp] at h0
        simp only [nonterminal, Bool.and_eq_true, Bool.not_eq_true'] at h0
        exact h0
      simp only [hc.1, hc.2, Bool.false_eq_true, if_false]
      have e1 : k + (n + 1) = (k + 1) + n := by omega
      have e2 : now + iterSum dur k (n + 1)
          = (now + dur k + POLL_INTERVAL_MS) + iterSum dur (k + 1) n := by
        rw [hS]; omega
      rw [e1, e2]
      exact ih (k + 1) (now + dur k + POLL_INTERVAL_MS)
        (fun j hj => by
          have := hnt (j + 1) (by omega)
          simpa [Nat.add_assoc, Nat.add_comm, Nat.add_left_comm] using this)
        (by rw [← e2]; exact halive)

theorem pollLoop_timeout (polls : Nat → Except String PollResp)
    (dur : Nat → Nat) (deadline D : Nat)
    (hnt : ∀ j, nonterminal (polls j) = true) (hD : ∀ j, dur j ≤ D) :
    ∀ (m k now : Nat), deadline - now ≤ m → now < deadline →
      (pollLoop polls dur deadline k now).outcome = .error .timedOut ∧
      deadline ≤ (pollLoop polls dur deadline k now).endTime ∧
      (pollLoop polls dur deadline k now).endTime < deadline + D + POLL_INTERVAL_MS := by
  intro m
  induction m with
  | zero => intro k now hm hnow; omega
  | succ m ih =>
    intro k now hm hnow
    have h0 := hnt k
    rw [pollLoop_unfold, if_pos hnow]
    cases hp : polls k with
    | error e => rw [hp] at h0; simp [nonterminal] at h0
    | ok resp =>
      have hc : (resp.status == "COMPLETED") = false
          ∧ (resp.status == "FAILED") = false := by
        rw [hp] at h0
        simp only [nonterminal, Bool.and_eq_true, Bool.not_eq_true'] at h0
        exact h0
      simp only [hc.1, hc.2, Bool.false_eq_true, if_false]
      by_cases h' : now + dur k + POLL_INTERVAL_MS < deadline
      · exact ih (k + 1) (now + dur k + POLL_INTERVAL_MS)
          (by simp only [POLL_INTERVAL_MS] at h' ⊢; omega) h'
      · rw [pollLoop_unfold, if_neg h']
        refine ⟨rfl, ?_, ?_⟩
        · simpa using Nat.le_of_not_lt h'
        · have := hD k
          simp only [POLL_INTERVAL_MS] at *
          omega

/-! ## Claim theorems -/

/-- Claim C1, counterexample: in `FoxitPdfService.js` the orchestrator
does NOT fall back when the optimization stage fails — with conversion
returning bytes `[1, 2, 3]` and optimization failing, it propagates a
`Stage 2 failed` error instead of returning the conversion output. -/
theorem foxit_orchestrator_stage2_failure_aborts :
    FoxitPdfService.generateConversationReport (.ok ("t")) []
        (fun _ => .ok [1, 2, 3]) (fun _ => .error ("RemoteTaskError"))
      = (.error ("[FoxitPdfService] Stage 2 failed: RemoteTaskError"), true)
    ∧ (FoxitPdfService.generateConversationReport (.ok ("t")) []
        (fun _ => .ok [1, 2, 3]) (fun _ => .error ("RemoteTaskError"))).1
      ≠ .ok [1, 2, 3] := by
  refine ⟨rfl, ?_⟩
  intro hcontra
  exact Except.noConfusion hcontra

/-- Claim C1, amended: when conversion succeeds with `initialBytes` and
optimization fails, the TS orchestrator (`pdfReportService.ts`) returns
`initialBytes` unchanged with no error, whereas the JS orchestrator
(`FoxitPdfService.js`) aborts with the error wrapped as
`Stage 2 failed`. -/
theorem stage2_failure_fallback_vs_abort (template : String)
    (data : List (String × Val))
    (conv : String → Except String (List Nat))
    (opt : List Nat → Except String (List Nat))
    (initial : List Nat) (e : String)
    (hconv : conv (interpolate template data) = .ok initial)
    (hopt : opt initial = .error e) :
    PdfReportService.generateConversationReport (.ok template) data conv opt
      = (.ok initial, true)
    ∧ FoxitPdfService.generateConversationReport (.ok template) data conv opt
      = (.error ("[FoxitPdfService] Stage 2 failed: " ++ e), true) := by
  constructor <;>
    simp [PdfReportService.generateConversationReport,
      FoxitPdfService.generateConversationReport, hconv, hopt]

/-- Claim C1, witness for the amended theorem. -/
theorem stage2_failure_fallback_vs_abort_witness :
    PdfReportService.generateConversationReport (.ok ("t")) []
        (fun _ => .ok [1, 2, 3]) (fun _ => .error ("RemoteTaskError"))
      = (.ok [1, 2, 3], true)
    ∧ FoxitPdfService.generateConversationReport (.ok ("t")) []
        (fun _ => .ok [1, 2, 3]) (fun _ => .error ("RemoteTaskError"))
      = (.error ("[FoxitPdfService] Stage 2 failed: RemoteTaskError"), true) :=
  stage2_failure_fallback_vs_abort ("t") [] _ _ [1, 2, 3] ("RemoteTaskError")
    rfl rfl

/-- Claim C2: if the conversion stage fails, both orchestrator versions
abort with the error wrapped by the `Stage 1 failed` tag, and the
optimization stage is never entered (second component `false`), whatever
`optimizePdf` would have done. -/
theorem stage1_failure_aborts_and_skips_optimization (template : String)
    (data : List (String × Val))
    (conv : String → Except String (List Nat))
    (opt : List Nat → Except String (List Nat)) (e : String)
    (hconv : conv (interpolate template data) = .error e) :
    PdfReportService.generateConversationReport (.ok template) data conv opt
      = (.error ("[PdfReport] Stage 1 failed: " ++ e), false)
    ∧ FoxitPdfService.generateConversationReport (.ok template) data conv opt
      = (.error ("[FoxitPdfService] Stage 1 failed: " ++ e), false) := by
  constructor <;>
    simp [PdfReportService.generateConversationReport,
      FoxitPdfService.generateConversationReport, hconv]

/-- Claim C2, witness. -/
theorem stage1_failure_aborts_and_skips_optimization_witness :
    PdfReportService.generateConversationReport (.ok ("t")) []
        (fun _ => .error ("TimeoutError")) (fun b => .ok b)
      = (.error ("[PdfReport] Stage 1 failed: TimeoutError"), false)
    ∧ FoxitPdfService.generateConversationReport (.ok ("t")) []
        (fun _ => .error ("TimeoutError")) (fun b => .ok b)
      = (.error ("[FoxitPdfService] Stage 1 failed: TimeoutError"), false) :=
  stage1_failure_aborts_and_skips_optimization ("t") [] _ _ ("TimeoutError") rfl

/-- Claim C3: in any run whose first `n` polls are non-terminal and whose
`n`-th poll is reached before the deadline, a COMPLETED status makes the
loop return the embedded result handle at once (`n + 1` polls, no extra
wait), a COMPLETED status with an absent (or empty, i.e. falsy) handle
fails with the `completedNoResult` protocol error, and a FAILED status
fails immediately with the `taskFailed` error carrying the raw payload —
without further polls and without waiting out the remaining budget. -/
theorem pollTask_terminal_behavior (polls : Nat → Except String PollResp)
    (dur : Nat → Nat) (start n : Nat)
    (hpre : ∀ j, j < n → nonterminal (polls j) = true)
    (halive : pollStart dur start n < start + POLL_TIMEOUT_MS) :
    (∀ resp s, polls n = .ok resp → resp.status = "COMPLETED" →
      resp.resultDocumentId = some s → s ≠ "" →
      pollTask polls dur start
        = ⟨.ok s, n + 1, pollStart dur start n + dur n⟩)
    ∧ (∀ resp, polls n = .ok resp → resp.status = "COMPLETED" →
      jsFalsyStr resp.resultDocumentId = true →
      pollTask polls dur start
        = ⟨.error .completedNoResult, n + 1, pollStart dur start n + dur n⟩)
    ∧ (∀ resp, polls n = .ok resp → resp.status = "FAILED" →
      pollTask polls dur start
        = ⟨.error (.taskFailed resp), n + 1, pollStart dur start n + dur n⟩) := by
  have hskip : pollTask polls dur start
      = pollLoop polls dur (start + POLL_TIMEOUT_MS) n (pollStart dur start n) := by
    have := pollLoop_skip polls dur (start + POLL_TIMEOUT_MS) n 0 start
      (fun j hj => by simpa using hpre j hj)
      (by simpa [pollStart] using halive)
    simpa [pollTask, pollStart] using this
  refine ⟨?_, ?_, ?_⟩
  · intro resp s hp hst hres hs
    rw [hskip, pollLoop_unfold, if_pos halive, hp]
    have hst' : (resp.status == "COMPLETED") = true := by simp [hst]
    have hs' : (s == "") = false := by simp [hs]
    simp [hst', hres, hs']
  · intro resp hp hst hfalsy
    rw [hskip, pollLoop_unfold, if_pos halive, hp]
    have hst' : (resp.status == "COMPLETED") = true := by simp [hst]
    cases hres : resp.resultDocumentId with
    | none => simp [hst', hres]
    | some s =>
      have hs' : (s == "") = true := by
        rw [hres] at hfalsy; simpa [jsFalsyStr] using hfalsy
      simp [hst', hres, hs']
  · intro resp hp hst
    rw [hskip, pollLoop_unfold, if_pos halive, hp]
    have hst1 : (resp.status == "COMPLETED") = false := by simp [hst]
    have hst2 : (resp.status == "FAILED") = true := by simp [hst]
    simp [hst1, hst2]

/-- Claim C3, witness: first poll RUNNING, second poll FAILED — the loop
stops after two polls with the `taskFailed` error. -/
theorem pollTask_terminal_behavior_witness :
    (∀ j, j < 1 →
      nonterminal ((fun k => if k = 0 then (.ok ⟨"RUNNING", none⟩ : Except String PollResp)
        else .ok ⟨"FAILED", none⟩) j) = true)
    ∧ pollStart (fun _ => 100) 0 1 < 0 + POLL_TIMEOUT_MS
    ∧ pollTask (fun k => if k = 0 then (.ok ⟨"RUNNING", none⟩ : Except String PollResp)
        else .ok ⟨"FAILED", none⟩) (fun _ => 100) 0
      = ⟨.error (.taskFailed ⟨"FAILED", none⟩), 2, pollStart (fun _ => 100) 0 1 + 100⟩ := by
  refine ⟨by decide, by decide, ?_⟩
  exact (pollTask_terminal_behavior
    (fun k => if k = 0 then (.ok ⟨"RUNNING", none⟩ : Except String PollResp)
      else .ok ⟨"FAILED", none⟩)
    (fun _ => 100) 0 1 (by decide) (by decide)).2.2 ⟨"FAILED", none⟩ rfl rfl

/-- Claim C4: a run in which every poll succeeds with a non-terminal
status and each poll takes at most `D` ms ends with the timeout error;
the loop exits no earlier than the 120-second deadline and less than one
poll duration plus one sleep interval after it. -/
theorem pollTask_timeout_bounds (polls : Nat → Except String PollResp)
    (dur : Nat → Nat) (start D : Nat)
    (hnt : ∀ j, nonterminal (polls j) = true) (hD : ∀ j, dur j ≤ D) :
    (pollTask polls dur start).outcome = .error .timedOut
    ∧ start + POLL_TIMEOUT_MS ≤ (pollTask polls dur start).endTime
    ∧ (pollTask polls dur start).endTime
        < start + POLL_TIMEOUT_MS + D + POLL_INTERVAL_MS := by
  have := pollLoop_timeout polls dur (start + POLL_TIMEOUT_MS) D hnt hD
    (start + POLL_TIMEOUT_MS) 0 start (by omega)
    (by simp [POLL_TIMEOUT_MS])
  simpa [pollTask] using this

/-- Claim C4, witness: every poll RUNNING and instantaneous — timeout at
exactly the deadline, strictly before deadline + interval. -/
theorem pollTask_timeout_bounds_witness :
    (pollTask (fun _ => .ok ⟨"RUNNING", none⟩) (fun _ => 0) 0).outcome
      = .error .timedOut
    ∧ 0 + POLL_TIMEOUT_MS
        ≤ (pollTask (fun _ => .ok ⟨"RUNNING", none⟩) (fun _ => 0) 0).endTime
    ∧ (pollTask (fun _ => .ok ⟨"RUNNING", none⟩) (fun _ => 0) 0).endTime
        < 0 + POLL_TIMEOUT_MS + 0 + POLL_INTERVAL_MS :=
  pollTask_timeout_bounds (fun _ => .ok ⟨"RUNNING", none⟩) (fun _ => 0) 0 0
    (fun _ => rfl) (fun _ => Nat.le_refl 0)

/-- Claim C5: a successful upload/trigger response is read by taking the
first present candidate field in order (`documentId`/`taskId`, then `id`,
then the nested `data` variant), and a non-empty identifier carried in
exactly one of the three tolerated shapes is extracted identically by
every step of both clients, regardless of which shape is used. -/
theorem identifier_extraction_first_candidate (v : String) (hv : v ≠ "") :
    (∀ b c, extractUploadId ⟨some v, b, c⟩ = some v)
    ∧ (∀ c, extractUploadId ⟨none, some v, c⟩ = some v)
    ∧ extractUploadId ⟨none, none, some v⟩ = some v
    ∧ (∀ b c, extractTaskId ⟨some v, b, c⟩ = some v)
    ∧ (∀ c, extractTaskId ⟨none, some v, c⟩ = some v)
    ∧ extractTaskId ⟨none, none, some v⟩ = some v
    ∧ FoxitPdfServicesClient.uploadPdf (.ok ⟨some v, none, none⟩) = .ok v
    ∧ FoxitPdfServicesClient.uploadPdf (.ok ⟨none, some v, none⟩) = .ok v
    ∧ FoxitPdfServicesClient.uploadPdf (.ok ⟨none, none, some v⟩) = .ok v
    ∧ FoxitPdfServicesClient.createCompressTask (.ok ⟨some v, none, none⟩) = .ok v
    ∧ FoxitPdfServicesClient.createCompressTask (.ok ⟨none, some v, none⟩) = .ok v
    ∧ FoxitPdfServicesClient.createCompressTask (.ok ⟨none, none, some v⟩) = .ok v
    ∧ FoxitDocGenClient.uploadHtml (.ok ⟨some v, none, none⟩) = .ok v
    ∧ FoxitDocGenClient.uploadHtml (.ok ⟨none, some v, none⟩) = .ok v
    ∧ FoxitDocGenClient.uploadHtml (.ok ⟨none, none, some v⟩) = .ok v
    ∧ FoxitDocGenClient.createPdfTask (.ok ⟨some v, none, none⟩) = .ok v
    ∧ FoxitDocGenClient.createPdfTask (.ok ⟨none, some v, none⟩) = .ok v
    ∧ FoxitDocGenClient.createPdfTask (.ok ⟨none, none, some v⟩) = .ok v := by
  have hb : (v == "") = false := by simp [hv]
  refine ⟨fun b c => rfl, fun c => rfl, rfl, fun b c => rfl, fun c => rfl, rfl,
    ?_, ?_, ?_, ?_, ?_, ?_, ?_, ?_, ?_, ?_, ?_, ?_⟩ <;>
    simp [FoxitPdfServicesClient.uploadPdf, FoxitPdfServicesClient.createCompressTask,
      FoxitDocGenClient.uploadHtml, FoxitDocGenClient.createPdfTask,
      extractUploadId, extractTaskId, jsNullish, hb]

/-- Claim C5, witness at identifier `doc-1`. -/
theorem identifier_extraction_first_candidate_witness :
    (∀ b c, extractUploadId ⟨some ("doc-1"), b, c⟩ = some ("doc-1"))
    ∧ (∀ c, extractUploadId ⟨none, some ("doc-1"), c⟩ = some ("doc-1"))
    ∧ extractUploadId ⟨none, none, some ("doc-1")⟩ = some ("doc-1")
    ∧ (∀ b c, extractTaskId ⟨some ("doc-1"), b, c⟩ = some ("doc-1"))
    ∧ (∀ c, extractTaskId ⟨none, some ("doc-1"), c⟩ = some ("doc-1"))
    ∧ extractTaskId ⟨none, none, some ("doc-1")⟩ = some ("doc-1")
    ∧ FoxitPdfServicesClient.uploadPdf (.ok ⟨some ("doc-1"), none, none⟩) = .ok ("doc-1")
    ∧ FoxitPdfServicesClient.uploadPdf (.ok ⟨none, some ("doc-1"), none⟩) = .ok ("doc-1")
    ∧ FoxitPdfServicesClient.uploadPdf (.ok ⟨none, none, some ("doc-1")⟩) = .ok ("doc-1")
    ∧ FoxitPdfServicesClient.createCompressTask (.ok ⟨some ("doc-1"), none, none⟩) = .ok ("doc-1")
    ∧ FoxitPdfServicesClient.createCompressTask (.ok ⟨none, some ("doc-1"), none⟩) = .ok ("doc-1")
    ∧ FoxitPdfServicesClient.createCompressTask (.ok ⟨none, none, some ("doc-1")⟩) = .ok ("doc-1")
    ∧ FoxitDocGenClient.uploadHtml (.ok ⟨some ("doc-1"), none, none⟩) = .ok ("doc-1")
    ∧ FoxitDocGenClient.uploadHtml (.ok ⟨none, some ("doc-1"), none⟩) = .ok ("doc-1")
    ∧ FoxitDocGenClient.uploadHtml (.ok ⟨none, none, some ("doc-1")⟩) = .ok ("doc-1")
    ∧ FoxitDocGenClient.createPdfTask (.ok ⟨some ("doc-1"), none, none⟩) = .ok ("doc-1")
    ∧ FoxitDocGenClient.createPdfTask (.ok ⟨none, some ("doc-1"), none⟩) = .ok ("doc-1")
    ∧ FoxitDocGenClient.createPdfTask (.ok ⟨none, none, some ("doc-1")⟩) = .ok ("doc-1") :=
  identifier_extraction_first_candidate ("doc-1") (by decide)

/-- Claim C6: when the upload response is a transport success but no
candidate field yields a usable identifier, both pipelines stop with the
no-identifier protocol error having entered only the upload step — the
trigger step is never called. -/
theorem upload_no_identifier_skips_trigger (w : PipelineWorld) (start : Nat)
    (resp : UploadResp) (hup : w.uploadRes = .ok resp)
    (hfalsy : jsFalsyStr (extractUploadId resp) = true) :
    FoxitPdfServicesClient.optimizePdf w start = (.error .uploadNoId, ["upload"])
    ∧ FoxitDocGenClient.generatePdfFromHtml w start = (.error .uploadNoId, ["upload"]) := by
  have hcase : FoxitPdfServicesClient.uploadPdf w.uploadRes = .error .uploadNoId
      ∧ FoxitDocGenClient.uploadHtml w.uploadRes = .error .uploadNoId := by
    rw [hup]
    cases hx : extractUploadId resp with
    | none =>
      constructor <;>
        simp [FoxitPdfServicesClient.uploadPdf, FoxitDocGenClient.uploadHtml, hx]
    | some s =>
      have hs : (s == "") = true := by
        rw [hx] at hfalsy; simpa [jsFalsyStr] using hfalsy
      constructor <;>
        simp [FoxitPdfServicesClient.uploadPdf, FoxitDocGenClient.uploadHtml, hx, hs]
  constructor
  · simp [FoxitPdfServicesClient.optimizePdf, hcase.1]
  · simp [FoxitDocGenClient.generatePdfFromHtml, hcase.2]

/-- Claim C6, witness: an upload response with no identifier fields. -/
theorem upload_no_identifier_skips_trigger_witness :
    FoxitPdfServicesClient.optimizePdf
        ⟨.ok ⟨none, none, none⟩, .ok ⟨some ("t1"), none, none⟩,
          fun _ => .ok ⟨"RUNNING", none⟩, fun _ => 0, .ok []⟩ 0
      = (.error .uploadNoId, ["upload"])
    ∧ FoxitDocGenClient.generatePdfFromHtml
        ⟨.ok ⟨none, none, none⟩, .ok ⟨some ("t1"), none, none⟩,
          fun _ => .ok ⟨"RUNNING", none⟩, fun _ => 0, .ok []⟩ 0
      = (.error .uploadNoId, ["upload"]) :=
  upload_no_identifier_skips_trigger
    ⟨.ok ⟨none, none, none⟩, .ok ⟨some ("t1"), none, none⟩,
      fun _ => .ok ⟨"RUNNING", none⟩, fun _ => 0, .ok []⟩ 0
    ⟨none, none, none⟩ rfl rfl

/-- Claim C10: a present-but-empty identifier candidate makes the step
fail with the no-identifier error rather than return an empty handle, and
because the candidates combine with nullish coalescing, an empty-string
`documentId`/`taskId` masks any later non-empty candidate (such as a
present `id`). -/
theorem empty_string_identifier_rejected_no_fallback (b c : Option String) :
    FoxitPdfServicesClient.uploadPdf (.ok ⟨some "", b, c⟩) = .error .uploadNoId
    ∧ FoxitPdfServicesClient.createCompressTask (.ok ⟨some "", b, c⟩) = .error .noTaskId
    ∧ FoxitDocGenClient.uploadHtml (.ok ⟨some "", b, c⟩) = .error .uploadNoId
    ∧ FoxitDocGenClient.createPdfTask (.ok ⟨some "", b, c⟩) = .error .noTaskId
    ∧ extractUploadId ⟨some "", b, c⟩ = some ""
    ∧ extractTaskId ⟨some "", b, c⟩ = some ""
    ∧ FoxitPdfServicesClient.uploadPdf (.ok ⟨some "", some ("real"), none⟩)
        ≠ .ok ("real") := by
  refine ⟨?_, ?_, ?_, ?_, rfl, rfl, ?_⟩ <;>
    simp [FoxitPdfServicesClient.uploadPdf, FoxitPdfServicesClient.createCompressTask,
      FoxitDocGenClient.uploadHtml, FoxitDocGenClient.createPdfTask,
      extractUploadId, extractTaskId, jsNullish]

/-- Claim C7, counterexample: the TS clients perform no startup
validation — with every environment variable missing they proceed with
the default empty string for the base URL and both credentials instead of
failing. -/
theorem ts_client_missing_env_uses_defaults :
    FoxitDocGenClientTs.BASE (fun _ => none) = ""
    ∧ FoxitDocGenClientTs.AUTH_HEADERS (fun _ => none)
      = [("client_id", ""), ("client_secret", "")]
    ∧ FoxitPdfServicesClientTs.BASE (fun _ => none) = ""
    ∧ FoxitPdfServicesClientTs.AUTH_HEADERS (fun _ => none)
      = [("client_id", ""), ("client_secret", "")] :=
  ⟨rfl, rfl, rfl, rfl⟩

/-- Claim C7, amended: the CommonJS clients treat a missing (or empty)
base URL, client id or client secret as fatal at module load, failing
with the respective `is not set` error before any request; the TS
clients instead default every missing value to the empty string and
proceed. -/
theorem config_missing_env_by_client (env : String → Option String) :
    (jsFalsyStr (env ("FOXIT_PDFSERVICES_BASE_URL")) = true →
      FoxitPdfServicesClientJs.loadEnv env
        = .error ("[FoxitPdfServicesClient] FOXIT_PDFSERVICES_BASE_URL is not set"))
    ∧ (jsFalsyStr (env ("FOXIT_PDFSERVICES_BASE_URL")) = false →
      jsFalsyStr (env ("FOXIT_PDFSERVICES_CLIENT_ID")) = true →
      FoxitPdfServicesClientJs.loadEnv env
        = .error ("[FoxitPdfServicesClient] FOXIT_PDFSERVICES_CLIENT_ID is not set"))
    ∧ (jsFalsyStr (env ("FOXIT_PDFSERVICES_BASE_URL")) = false →
      jsFalsyStr (env ("FOXIT_PDFSERVICES_CLIENT_ID")) = false →
      jsFalsyStr (env ("FOXIT_PDFSERVICES_CLIENT_SECRET")) = true →
      FoxitPdfServicesClientJs.loadEnv env
        = .error ("[FoxitPdfServicesClient] FOXIT_PDFSERVICES_CLIENT_SECRET is not set"))
    ∧ (jsFalsyStr (env ("FOXIT_DOCGEN_BASE_URL")) = true →
      FoxitDocGenClientJs.loadEnv env
        = .error ("[FoxitDocGenClient] FOXIT_DOCGEN_BASE_URL is not set"))
    ∧ (jsFalsyStr (env ("FOXIT_DOCGEN_BASE_URL")) = false →
      jsFalsyStr (env ("FOXIT_DOCGEN_CLIENT_ID")) = true →
      FoxitDocGenClientJs.loadEnv env
        = .error ("[FoxitDocGenClient] FOXIT_DOCGEN_CLIENT_ID is not set"))
    ∧ (jsFalsyStr (env ("FOXIT_DOCGEN_BASE_URL")) = false →
      jsFalsyStr (env ("FOXIT_DOCGEN_CLIENT_ID")) = false →
      jsFalsyStr (env ("FOXIT_DOCGEN_CLIENT_SECRET")) = true →
      FoxitDocGenClientJs.loadEnv env
        = .error ("[FoxitDocGenClient] FOXIT_DOCGEN_CLIENT_SECRET is not set"))
    ∧ (env ("FOXIT_DOCGEN_BASE_URL") = none →
      FoxitDocGenClientTs.BASE env = "")
    ∧ (env ("FOXIT_DOCGEN_CLIENT_ID") = none →
      env ("FOXIT_DOCGEN_CLIENT_SECRET") = none →
      FoxitDocGenClientTs.AUTH_HEADERS env
        = [("client_id", ""), ("client_secret", "")])
    ∧ (env ("FOXIT_PDFSERVICES_BASE_URL") = none →
      FoxitPdfServicesClientTs.BASE env = "")
    ∧ (env ("FOXIT_PDFSERVICES_CLIENT_ID") = none →
      env ("FOXIT_PDFSERVICES_CLIENT_SECRET") = none →
      FoxitPdfServicesClientTs.AUTH_HEADERS env
        = [("client_id", ""), ("client_secret", "")]) := by
  refine ⟨?_, ?_, ?_, ?_, ?_, ?_, ?_, ?_, ?_, ?_⟩
  · intro h1
    simp [FoxitPdfServicesClientJs.loadEnv, h1]
  · intro h1 h2
    simp [FoxitPdfServicesClientJs.loadEnv, h1, h2]
  · intro h1 h2 h3
    simp [FoxitPdfServicesClientJs.loadEnv, h1, h2, h3]
  · intro h1
    simp [FoxitDocGenClientJs.loadEnv, h1]
  · intro h1 h2
    simp [FoxitDocGenClientJs.loadEnv, h1, h2]
  · intro h1 h2 h3
    simp [FoxitDocGenClientJs.loadEnv, h1, h2, h3]
  · intro h1
    simp [FoxitDocGenClientTs.BASE, h1, stripTrailingSlash]
  · intro h1 h2
    simp [FoxitDocGenClientTs.AUTH_HEADERS, h1, h2]
  · intro h1
    simp [FoxitPdfServicesClientTs.BASE, h1, stripTrailingSlash]
  · intro h1 h2
    simp [FoxitPdfServicesClientTs.AUTH_HEADERS, h1, h2]

/-- Claim C7, witness: the all-unset environment. -/
theorem config_missing_env_by_client_witness :
    FoxitPdfServicesClientJs.loadEnv (fun _ => none)
      = .error ("[FoxitPdfServicesClient] FOXIT_PDFSERVICES_BASE_URL is not set")
    ∧ FoxitDocGenClientJs.loadEnv (fun _ => none)
      = .error ("[FoxitDocGenClient] FOXIT_DOCGEN_BASE_URL is not set")
    ∧ FoxitDocGenClientTs.BASE (fun _ => none) = ""
    ∧ FoxitPdfServicesClientTs.BASE (fun _ => none) = "" :=
  ⟨(config_missing_env_by_client (fun _ => none)).1 rfl,
   (config_missing_env_by_client (fun _ => none)).2.2.2.1 rfl,
   (config_missing_env_by_client (fun _ => none)).2.2.2.2.2.2.1 rfl,
   (config_missing_env_by_client (fun _ => none)).2.2.2.2.2.2.2.2.1 rfl⟩

/-- Claim C8: template rendering is a total function (the embedding needs
no error case), and tokens resolve as the source's guarded callbacks
dictate.  In any brace-free left context, a well-formed `{{list[i]}}` /
`{{list[i].field}}` / `{{key}}` token whose value holds no brace is
replaced by exactly that value; the value is the stored element (or
field) when `0 ≤ i < length` with canonically written `i`, and the empty
string for an out-of-range index, a missing field, a missing or
non-array list, and any otherwise unresolved token. -/
theorem interpolate_token_resolution (data : List (String × Val))
    (pre post : String) (hpre : '{' ∉ pre.data) :
    (∀ t : Tok, wfTok t = true → '{' ∉ (tokResolve data t).data →
      interpolate ⟨pre.data ++ (tokChars t ++ post.data)⟩ data
        = pre ++ (tokResolve data t ++ interpolate post data))
    ∧ (∀ n i k items item, lookupData data n = some (.arr items) →
        canonIndex i = some k → items.get? k = some item →
        repl2 data n i = itemToString item)
    ∧ (∀ n i k items, lookupData data n = some (.arr items) →
        canonIndex i = some k → items.get? k = none → repl2 data n i = "")
    ∧ (∀ n i, (lookupData data n = none ∨ ∃ s, lookupData data n = some (.str s)) →
        repl2 data n i = "" ∧ ∀ f, repl1 data n i f = "")
    ∧ (∀ n i k items fields f v, lookupData data n = some (.arr items) →
        canonIndex i = some k → items.get? k = some (.obj fields) →
        fields.find? (fun p => p.1 == f) = some (f, v) →
        repl1 data n i f = v)
    ∧ (∀ n i k items fields f, lookupData data n = some (.arr items) →
        canonIndex i = some k → items.get? k = some (.obj fields) →
        fields.find? (fun p => p.1 == f) = none →
        repl1 data n i f = "")
    ∧ (∀ n, lookupData data n = none → repl3 data n = "") := by
  refine ⟨fun t hwf hval => interpolate_token_context data pre t post hpre hwf hval,
    ?_, ?_, ?_, ?_, ?_, ?_⟩
  · intro n i k items item hl hcanon hget
    rw [List.get?_eq_getElem?] at hget
    simp [repl2, jsArrayGet, hl, hcanon, hget]
  · intro n i k items hl hcanon hget
    rw [List.get?_eq_getElem?] at hget
    simp [repl2, jsArrayGet, hl, hcanon, hget]
  · intro n i hmiss
    rcases hmiss with hl | ⟨s, hl⟩ <;>
      exact ⟨by simp [repl2, hl], fun f => by simp [repl1, hl]⟩
  · intro n i k items fields f v hl hcanon hget hfind
    rw [List.get?_eq_getElem?] at hget
    simp [repl1, jsArrayGet, jsItemGet, hl, hcanon, hget, hfind]
  · intro n i k items fields f hl hcanon hget hfind
    rw [List.get?_eq_getElem?] at hget
    simp [repl1, jsArrayGet, jsItemGet, hl, hcanon, hget, hfind]
  · intro n hl
    simp [repl3, hl]

/-- Claim C8, witness: rendering `{{facts[1]}}` in context against a
two-element list. -/
theorem interpolate_token_resolution_witness :
    ('{' ∉ ("x: ").data)
    ∧ ((∀ t : Tok, wfTok t = true →
        '{' ∉ (tokResolve [("facts", Val.arr [Item.str ("F0"), Item.str ("F1")])] t).data →
        interpolate ⟨("x: ").data ++ (tokChars t ++ ("!").data)⟩
            [("facts", Val.arr [Item.str ("F0"), Item.str ("F1")])]
          = ("x: ") ++ (tokResolve [("facts", Val.arr [Item.str ("F0"), Item.str ("F1")])] t
              ++ interpolate ("!") [("facts", Val.arr [Item.str ("F0"), Item.str ("F1")])]))
      ∧ (∀ n i k items item,
          lookupData [("facts", Val.arr [Item.str ("F0"), Item.str ("F1")])] n = some (.arr items) →
          canonIndex i = some k → items.get? k = some item →
          repl2 [("facts", Val.arr [Item.str ("F0"), Item.str ("F1")])] n i = itemToString item)
      ∧ (∀ n i k items,
          lookupData [("facts", Val.arr [Item.str ("F0"), Item.str ("F1")])] n = some (.arr items) →
          canonIndex i = some k → items.get? k = none →
          repl2 [("facts", Val.arr [Item.str ("F0"), Item.str ("F1")])] n i = "")
      ∧ (∀ n i,
          (lookupData [("facts", Val.arr [Item.str ("F0"), Item.str ("F1")])] n = none ∨
            ∃ s, lookupData [("facts", Val.arr [Item.str ("F0"), Item.str ("F1")])] n = some (.str s)) →
          repl2 [("facts", Val.arr [Item.str ("F0"), Item.str ("F1")])] n i = ""
            ∧ ∀ f, repl1 [("facts", Val.arr [Item.str ("F0"), Item.str ("F1")])] n i f = "")
      ∧ (∀ n i k items fields f v,
          lookupData [("facts", Val.arr [Item.str ("F0"), Item.str ("F1")])] n = some (.arr items) →
          canonIndex i = some k → items.get? k = some (.obj fields) →
          fields.find? (fun p => p.1 == f) = some (f, v) →
          repl1 [("facts", Val.arr [Item.str ("F0"), Item.str ("F1")])] n i f = v)
      ∧ (∀ n i k items fields f,
          lookupData [("facts", Val.arr [Item.str ("F0"), Item.str ("F1")])] n = some (.arr items) →
          canonIndex i = some k → items.get? k = some (.obj fields) →
          fields.find? (fun p => p.1 == f) = none →
          repl1 [("facts", Val.arr [Item.str ("F0"), Item.str ("F1")])] n i f = "")
      ∧ (∀ n, lookupData [("facts", Val.arr [Item.str ("F0"), Item.str ("F1")])] n = none →
          repl3 [("facts", Val.arr [Item.str ("F0"), Item.str ("F1")])] n = "")) :=
  ⟨by decide,
   interpolate_token_resolution [("facts", Val.arr [Item.str ("F0"), Item.str ("F1")])]
     ("x: ") ("!") (by decide)⟩

/-- Claim C9, counterexample: rendering can create a token that was not
in the template.  With brace-free data values (`"0"`, `"v"`), the
template `{{a[{{i}}].b}}` renders to `{{a[0].b}}`, which matches the
pattern-1 token grammar, and re-running `interpolate` on that output
substitutes it to `v` — rendering is not idempotent as claimed. -/
theorem interpolate_token_creation_not_idempotent :
    interpolate ("\x7b\x7ba[\x7b\x7bi\x7d\x7d].b\x7d\x7d")
        [("i", Val.str ("0")), ("a", Val.arr [Item.obj [("b", "v")]])]
      = "\x7b\x7ba[0].b\x7d\x7d"
    ∧ matchP1 ("\x7b\x7ba[0].b\x7d\x7d").data ≠ none
    ∧ interpolate ("\x7b\x7ba[0].b\x7d\x7d")
        [("i", Val.str ("0")), ("a", Val.arr [Item.obj [("b", "v")]])]
      = "v"
    ∧ interpolate
        (interpolate ("\x7b\x7ba[\x7b\x7bi\x7d\x7d].b\x7d\x7d")
          [("i", Val.str ("0")), ("a", Val.arr [Item.obj [("b", "v")]])])
        [("i", Val.str ("0")), ("a", Val.arr [Item.obj [("b", "v")]])]
      ≠ interpolate ("\x7b\x7ba[\x7b\x7bi\x7d\x7d].b\x7d\x7d")
          [("i", Val.str ("0")), ("a", Val.arr [Item.obj [("b", "v")]])]
    ∧ braceFree ("0") = true ∧ braceFree ("v") = true := by
  refine ⟨rfl, by decide, rfl, by decide, rfl, rfl⟩

/-- Claim C9, amended: on a render-safe structured template — every
literal stretch brace-free and every token well-formed with a brace-free
resolved value — the output of `interpolate` is the concatenation of the
resolved segments, contains no brace at all (hence no token of the
grammar), and re-running `interpolate` on it with the same data is a
no-op. -/
theorem interpolate_renderSafe_idempotent (data : List (String × Val))
    (tpl : List Seg) (hsafe : renderSafe data tpl = true) :
    interpolate (flatten tpl) data = renderAll data tpl
    ∧ braceFree (interpolate (flatten tpl) data) = true
    ∧ interpolate (interpolate (flatten tpl) data) data
        = interpolate (flatten tpl) data := by
  have h1 := interpolate_flatten data tpl hsafe
  have h2 := renderAll_braceFree data tpl hsafe
  refine ⟨h1, by rw [h1]; exact h2, ?_⟩
  rw [h1]
  exact interpolate_noLB _ data (braceFree_noLB _ h2)

/-- Claim C9, witness: a safe four-segment template. -/
theorem interpolate_renderSafe_idempotent_witness :
    renderSafe [("facts", Val.arr [Item.str ("F0")]), ("who", Val.str ("N"))]
        [Seg.lit ("Hi "), Seg.tok (Tok.p2 ("facts") ("0")), Seg.lit ("!"),
          Seg.tok (Tok.p3 ("who"))] = true
    ∧ (interpolate
        (flatten [Seg.lit ("Hi "), Seg.tok (Tok.p2 ("facts") ("0")), Seg.lit ("!"),
          Seg.tok (Tok.p3 ("who"))])
        [("facts", Val.arr [Item.str ("F0")]), ("who", Val.str ("N"))]
      = renderAll [("facts", Val.arr [Item.str ("F0")]), ("who", Val.str ("N"))]
          [Seg.lit ("Hi "), Seg.tok (Tok.p2 ("facts") ("0")), Seg.lit ("!"),
            Seg.tok (Tok.p3 ("who"))]
      ∧ braceFree (interpolate
          (flatten [Seg.lit ("Hi "), Seg.tok (Tok.p2 ("facts") ("0")), Seg.lit ("!"),
            Seg.tok (Tok.p3 ("who"))])
          [("facts", Val.arr [Item.str ("F0")]), ("who", Val.str ("N"))]) = true
      ∧ interpolate
          (interpolate
            (flatten [Seg.lit ("Hi "), Seg.tok (Tok.p2 ("facts") ("0")), Seg.lit ("!"),
              Seg.tok (Tok.p3 ("who"))])
            [("facts", Val.arr [Item.str ("F0")]), ("who", Val.str ("N"))])
          [("facts", Val.arr [Item.str ("F0")]), ("who", Val.str ("N"))]
        = interpolate
            (flatten [Seg.lit ("Hi "), Seg.tok (Tok.p2 ("facts") ("0")), Seg.lit ("!"),
              Seg.tok (Tok.p3 ("who"))])
            [("facts", Val.arr [Item.str ("F0")]), ("who", Val.str ("N"))]) :=
  ⟨by decide,
   interpolate_renderSafe_idempotent
     [("facts", Val.arr [Item.str ("F0")]), ("who", Val.str ("N"))]
     [Seg.lit ("Hi "), Seg.tok (Tok.p2 ("facts") ("0")), Seg.lit ("!"),
       Seg.tok (Tok.p3 ("who"))] (by decide)⟩
